import Mathlib

/-!
Verification development for the Alexa-to-Make webhook proxy.

The repository holds several near-duplicate revisions of one HTTP handler:
  src/api/alexa.js        (namespace AlexaJs)
  src/api_alexa.js        (namespace ApiAlexa)
  src/unnamed/part_000    (namespace Part000)
  src/unnamed/part_001    (namespace Part001)
  src/unnamed/part_003    (namespace Part003)
  src/unnamed/part_004    (namespace Part004)

Each handler is embedded as a total Lean function over:
  - a JSON value type (Json) standing for parsed JavaScript values,
  - a Config record for the environment variables read at module load,
  - a Req record for the inbound HTTP request, where the result of
    JSON.parse on the raw body is supplied as an oracle (Option Json,
    none meaning the body is not valid JSON), as JSON.parse is a
    JavaScript builtin, not repository code,
  - a Bool oracle for the alexa-verifier collaborator (an external
    library treated as opaque, per the spec),
  - a FetchOutcome oracle for the one outbound fetch: either the fetch
    rejects (network error, or the 8s abort in src/api/alexa.js), or it
    yields a response with an ok flag, a status, the raw body text and
    the result of JSON.parse on that text.

A handler returns the single HTTP response it writes together with the
list of outbound calls it performed; revisions whose body read happens
outside every try/catch (src/api_alexa.js, part_004) return an Option,
none standing for an exception escaping to the transport layer.
-/

/-- Json models a parsed JavaScript/JSON value. A missing object member
(JavaScript undefined) is represented by Option.none at use sites. -/
inductive Json where
  | null : Json
  | bool : Bool → Json
  | num : Int → Json
  | str : String → Json
  | arr : List Json → Json
  | obj : List (String × Json) → Json

/-- isNullJ tests whether a value is the JavaScript null literal. -/
def isNullJ : Json → Bool
  | Json.null => true
  | _ => false

/-- lookupF finds the first member with the given key in an object's
member list, as JavaScript property lookup does. -/
def lookupF : List (String × Json) → String → Option Json
  | [], _ => none
  | (k, v) :: rest, key => if k = key then some v else lookupF rest key

/-- Json.get? is JavaScript property access j[k] at the value level:
defined members of objects are found, everything else is undefined. -/
def Json.get? : Json → String → Option Json
  | Json.obj fs, k => lookupF fs k
  | _, _ => none

/-- jget chains an optional access, modelling the JavaScript a?.b
optional-chaining step (undefined and null both short-circuit). -/
def jget (o : Option Json) (k : String) : Option Json :=
  match o with
  | some j => j.get? k
  | none => none

/-- truthy is JavaScript truthiness of a defined value. -/
def truthy : Json → Bool
  | Json.null => false
  | Json.bool b => b
  | Json.num n => n != 0
  | Json.str s => s ≠ ""
  | Json.arr _ => true
  | Json.obj _ => true

/-- truthyO extends truthiness to possibly-undefined values. -/
def truthyO (o : Option Json) : Bool :=
  match o with
  | some j => truthy j
  | none => false

/-- jsOrO is the JavaScript a || b on possibly-undefined values: the
first operand when truthy, otherwise the second operand as it stands. -/
def jsOrO (a b : Option Json) : Option Json :=
  if truthyO a then a else b

/-- jsOrD is a || d with a defined default, as in the source's
trailing || "" fallbacks; it yields the value of a when a is truthy. -/
def jsOrD (a : Option Json) (d : Json) : Json :=
  match a with
  | some j => if truthy j then j else d
  | none => d

mutual

/-- jsToString models the JavaScript String(v) conversion for the value
shapes the handlers can meet (String of an array joins the elements with
commas, null elements becoming empty, per Array.prototype.toString). -/
def jsToString : Json → String
  | Json.null => "null"
  | Json.bool b => if b then "true" else "false"
  | Json.num n => toString n
  | Json.str s => s
  | Json.obj _ => "[object Object]"
  | Json.arr xs => String.intercalate "," (jsToStringList xs)

/-- jsToStringList converts the elements of an array for joining. -/
def jsToStringList : List Json → List String
  | [] => []
  | j :: rest => (if isNullJ j then "" else jsToString j) :: jsToStringList rest

end

/-- isWsChar is a whitespace test for the trim model. -/
def isWsChar (c : Char) : Bool := c.isWhitespace

/-- jsTrim models the JavaScript String.prototype.trim builtin at the
character-list level (the handlers only trim ASCII text). -/
def jsTrim (s : String) : String :=
  ⟨(((s.data.dropWhile isWsChar).reverse).dropWhile isWsChar).reverse⟩

/-- jsStartsWith models the JavaScript String.prototype.startsWith
builtin. -/
def jsStartsWith (s p : String) : Bool :=
  List.isPrefixOf p.data s.data

/-- jsEndsWith models the JavaScript String.prototype.endsWith
builtin. -/
def jsEndsWith (s p : String) : Bool :=
  List.isPrefixOf p.data.reverse s.data.reverse

/-- lowerChar lowers one ASCII letter, enough for the fixed pattern the
code compares against. -/
def lowerChar (c : Char) : Char :=
  if 65 ≤ c.toNat && c.toNat ≤ 90 then Char.ofNat (c.toNat + 32) else c

/-- jsToLower models the JavaScript String.prototype.toLowerCase
builtin on ASCII text. -/
def jsToLower (s : String) : String := ⟨s.data.map lowerChar⟩

/-- hasSub tests whether pat occurs as a contiguous run in a
character list. -/
def hasSub (pat : List Char) : List Char → Bool
  | [] => List.isPrefixOf pat []
  | c :: rest => List.isPrefixOf pat (c :: rest) || hasSub pat rest

/-- jsEq is the JavaScript strict equality test of a possibly-undefined
value against a string literal, as used in the type/intent dispatch. -/
def jsEq (o : Option Json) (s : String) : Bool :=
  match o with
  | some (Json.str t) => t = s
  | _ => false

/-- jsOrJ is the JavaScript a || d on two defined values. -/
def jsOrJ (a d : Json) : Json :=
  if truthy a then a else d

/-- jvalD passes a possibly-undefined member on as a value; the handlers
only do this under a truthiness guard, so the undefined filler is inert. -/
def jvalD (o : Option Json) : Json :=
  match o with
  | some j => j
  | none => Json.null

/-- Config holds the environment variables each revision reads at module
load: the downstream webhook URL (empty string when unset, matching the
|| "" default) and the signature-verification toggle, already reduced
from its boolean-like string form to a Bool. -/
structure Config where
  MAKE_WEBHOOK_URL : String
  verifyEnabled : Bool

/-- Req is the inbound HTTP request. bodyJson is the oracle result of
JSON.parse on the raw body (none when the body is not valid JSON);
bodyReadOk is whether streaming the raw body succeeded; hasSignature and
hasCertUrl are the truthiness of the signature and signaturecertchainurl
headers; frameworkBody is the middleware-parsed req.body, consulted only
by the part_001 revision. -/
structure Req where
  method : String
  hasSignature : Bool
  hasCertUrl : Bool
  bodyReadOk : Bool
  bodyJson : Option Json
  frameworkBody : Option Json

/-- FetchResult is a downstream HTTP response: the ok flag and status of
the fetch Response, the raw body text, and the oracle result of
JSON.parse on that text. -/
structure FetchResult where
  ok : Bool
  status : Nat
  bodyRaw : String
  bodyJson : Option Json

/-- FetchOutcome is the outcome of the single outbound fetch: the call
rejects (network error or abort on timeout), or a response arrives. -/
inductive FetchOutcome where
  | throws : FetchOutcome
  | result : FetchResult → FetchOutcome

/-- OutboundCall records one outbound HTTP POST: its destination URL and
the JSON payload serialized into the request body. -/
structure OutboundCall where
  url : String
  payload : Json

/-- HttpResponse is the one response a handler writes: the status code
and either a JSON body (res.json) or a plain text body (res.send). -/
structure HttpResponse where
  status : Nat
  body : Sum Json String

/-- reqType translates alexaReq.request?.type. -/
def reqType (j : Json) : Option Json :=
  jget (j.get? "request") "type"

/-- reqIntentName translates alexaReq.request?.intent?.name. -/
def reqIntentName (j : Json) : Option Json :=
  jget (jget (j.get? "request") "intent") "name"

/-- slotValue translates alexaReq.request?.intent?.slots?.NAME?.value. -/
def slotValue (j : Json) (slot : String) : Option Json :=
  jget (jget (jget (jget (j.get? "request") "intent") "slots") slot) "value"

/-- queryQS translates the query extraction of src/api/alexa.js lines
171-174 and part_000 lines 108-111: slots query, then SearchQuery,
then the empty string. -/
def queryQS (j : Json) : Json :=
  jsOrD (jsOrO (slotValue j "query") (slotValue j "SearchQuery")) (Json.str "")

/-- queryQ translates the single-slot query extraction of
src/api_alexa.js line 21, part_001 line 37 and part_004 line 97. -/
def queryQ (j : Json) : Json :=
  jsOrD (slotValue j "query") (Json.str "")

/-- queryQPT translates part_003 lines 79-84: slots query, pergunta,
texto, then the empty string (the slots || fallback to an empty object
collapses at the value level, since lookups on it are all undefined). -/
def queryQPT (j : Json) : Json :=
  jsOrD (jsOrO (jsOrO (slotValue j "query") (slotValue j "pergunta"))
      (slotValue j "texto")) (Json.str "")

/-- jsStrO tests that a possibly-undefined value is a string. -/
def jsStrO (o : Option Json) : Bool :=
  match o with
  | some (Json.str _) => true
  | _ => false

/-- isOutputSpeech checks the outputSpeech object of the spec's Outbound
Envelope shape: type SSML with an ssml string, or type PlainText with a
text string. -/
def isOutputSpeech (j : Json) : Bool :=
  (jsEq (j.get? "type") "SSML" && jsStrO (j.get? "ssml")) ||
  (jsEq (j.get? "type") "PlainText" && jsStrO (j.get? "text"))

/-- isEnvelope checks the spec's Outbound Envelope shape: version "1.0"
and a response object with a boolean shouldEndSession and an
outputSpeech object (a reprompt member may or may not be present). -/
def isEnvelope (j : Json) : Bool :=
  jsEq (j.get? "version") "1.0" &&
  (match jget (j.get? "response") "shouldEndSession" with
   | some (Json.bool _) => true
   | _ => false) &&
  (match jget (j.get? "response") "outputSpeech" with
   | some os => isOutputSpeech os
   | none => false)

/-- envEndSession reads response.shouldEndSession of an envelope. -/
def envEndSession (j : Json) : Option Json :=
  jget (j.get? "response") "shouldEndSession"

/-- envSpeech reads response.outputSpeech of an envelope. -/
def envSpeech (j : Json) : Option Json :=
  jget (j.get? "response") "outputSpeech"

/-- envSpeechType reads response.outputSpeech.type of an envelope. -/
def envSpeechType (j : Json) : Option Json :=
  jget (envSpeech j) "type"

/-- envSsml reads response.outputSpeech.ssml of an envelope. -/
def envSsml (j : Json) : Option Json :=
  jget (envSpeech j) "ssml"

/-- envText reads response.outputSpeech.text of an envelope. -/
def envText (j : Json) : Option Json :=
  jget (envSpeech j) "text"

/-- speechNonEmpty holds when the envelope carries a non-empty ssml or
text speech string. -/
def speechNonEmpty (j : Json) : Bool :=
  (match envSsml j with
   | some (Json.str s) => s ≠ ""
   | _ => false) ||
  (match envText j with
   | some (Json.str s) => s ≠ ""
   | _ => false)

/-- passThru translates the pass-through test r && r.version &&
r.response of src/api/alexa.js line 195 and part_003 line 137. -/
def passThru (j : Json) : Bool :=
  truthy j && truthyO (j.get? "version") && truthyO (j.get? "response")

/-- makeData translates the downstream body decoding of src/api/alexa.js
lines 118-126 and part_003 lines 118-123: JSON.parse of the response
text, falling back to an object with the raw text under the text key.
The throws constructor never reaches this decoding; its clause is inert
filler. -/
def makeData (f : FetchOutcome) : Json :=
  match f with
  | FetchOutcome.throws => Json.null
  | FetchOutcome.result r =>
    match r.bodyJson with
    | some d => d
    | none => Json.obj [("text", Json.str r.bodyRaw)]

namespace AlexaJs

/-- jsToStringN translates String(v ?? "") at src/api/alexa.js line 13:
null (and undefined) map to the empty string before conversion. -/
def jsToStringN (j : Json) : String :=
  if isNullJ j then "" else jsToString j

/-- alexaPlain translates src/api/alexa.js lines 8-16. -/
def alexaPlain (text : Json) (shouldEnd : Bool) : Json :=
  Json.obj [("version", Json.str "1.0"),
    ("response", Json.obj
      [("shouldEndSession", Json.bool shouldEnd),
       ("outputSpeech", Json.obj
         [("type", Json.str "PlainText"),
          ("text", Json.str (jsToStringN text))])])]

/-- alexaSSML translates src/api/alexa.js lines 18-29: trim, wrap in
speak tags unless the trimmed string already starts with the opening
tag, and emit an SSML outputSpeech. -/
def alexaSSML (ssml : Json) (shouldEnd : Bool) : Json :=
  let clean := jsTrim (jsToStringN ssml)
  let wrapped := if jsStartsWith clean "<speak>" then clean
                 else "<speak>" ++ clean ++ "</speak>"
  Json.obj [("version", Json.str "1.0"),
    ("response", Json.obj
      [("shouldEndSession", Json.bool shouldEnd),
       ("outputSpeech", Json.obj
         [("type", Json.str "SSML"),
          ("ssml", Json.str wrapped)])])]

/-- alexaError translates src/api/alexa.js lines 31-33. -/
def alexaError (text : String) : Json :=
  alexaSSML (Json.str ("<speak>" ++ text ++ "</speak>")) true

/-- alexaErrorDefault is alexaError at its default argument, the fixed
generic-error text of src/api/alexa.js line 31. -/
def alexaErrorDefault : Json :=
  alexaError "Desculpe, houve um erro ao processar."

/-- buildAskPrompt translates src/api/alexa.js lines 35-40. -/
def buildAskPrompt : Json :=
  alexaSSML (Json.str "<speak>Oi! O que você quer saber?</speak>") false

/-- askMakePayload translates the payload built at src/api/alexa.js
lines 89-93. -/
def askMakePayload (query sessionId : Json) : Json :=
  Json.obj [("query", Json.str (jsTrim (jsToString (jsOrJ query (Json.str ""))))),
            ("sessionId", Json.str (jsToString (jsOrJ sessionId (Json.str "")))),
            ("source", Json.str "alexa")]

/-- askMake translates src/api/alexa.js lines 86-127: throw when the
webhook URL is empty; otherwise one fetch whose rejection (including the
8 second abort), or non-ok status, throws, and whose ok response body is
decoded by makeData. -/
def askMake (cfg : Config) (query sessionId : Json) (f : FetchOutcome) :
    Except Unit Json × List OutboundCall :=
  if cfg.MAKE_WEBHOOK_URL = "" then (Except.error (), [])
  else
    let call : OutboundCall := ⟨cfg.MAKE_WEBHOOK_URL, askMakePayload query sessionId⟩
    match f with
    | FetchOutcome.throws => (Except.error (), [call])
    | FetchOutcome.result r =>
      if r.ok then (Except.ok (makeData (FetchOutcome.result r)), [call])
      else (Except.error (), [call])

/-- handler translates src/api/alexa.js lines 130-233. A failed body
read rejects inside the outer try and lands in the catch at line 229; a
body parsing to the null literal throws at the property access on line
169 and lands in the same catch; verification failure (enabled with a
header missing, or the verifier reporting an error) is caught at line
153. -/
def handler (cfg : Config) (req : Req) (verifierOk : Bool) (f : FetchOutcome) :
    HttpResponse × List OutboundCall :=
  if req.method ≠ "POST" then (⟨405, Sum.inr "Method Not Allowed"⟩, [])
  else if !req.bodyReadOk then (⟨500, Sum.inl alexaErrorDefault⟩, [])
  else if cfg.verifyEnabled && (!req.hasSignature || !req.hasCertUrl || !verifierOk) then
    (⟨400, Sum.inl (alexaPlain (Json.str "Não foi possível validar a requisição.") true)⟩, [])
  else
    match req.bodyJson with
    | none => (⟨400, Sum.inl (alexaError "Requisição inválida.")⟩, [])
    | some alexaReq =>
      if isNullJ alexaReq then (⟨500, Sum.inl alexaErrorDefault⟩, [])
      else
        let ty := reqType alexaReq
        let intent := reqIntentName alexaReq
        let query := queryQS alexaReq
        if jsEq ty "LaunchRequest" then (⟨200, Sum.inl buildAskPrompt⟩, [])
        else if jsEq ty "IntentRequest" then
          if jsEq intent "AskPerplexityIntent" then
            if !truthy query then
              (⟨200, Sum.inl (alexaSSML (Json.str "<speak>Qual é a sua pergunta?</speak>") false)⟩, [])
            else
              let sessionId := jsOrD (jget (alexaReq.get? "session") "sessionId") (Json.str "")
              match askMake cfg query sessionId f with
              | (Except.error _, calls) => (⟨200, Sum.inl alexaErrorDefault⟩, calls)
              | (Except.ok r, calls) =>
                if passThru r then (⟨200, Sum.inl r⟩, calls)
                else if truthyO (r.get? "ssml") then
                  (⟨200, Sum.inl (alexaSSML (jvalD (r.get? "ssml")) true)⟩, calls)
                else if truthyO (r.get? "text") then
                  (⟨200, Sum.inl (alexaPlain (jvalD (r.get? "text")) true)⟩, calls)
                else
                  (⟨200, Sum.inl (alexaPlain (Json.str "Desculpe, não encontrei a resposta.") true)⟩, calls)
          else
            (⟨200, Sum.inl (alexaPlain (Json.str "Desculpe, não entendi. Pode repetir?") false)⟩, [])
        else (⟨200, Sum.inl (alexaPlain (Json.str "Ok.") true)⟩, [])

end AlexaJs

/-- jsIncludes models the JavaScript String.prototype.includes
builtin. -/
def jsIncludes (s pat : String) : Bool := hasSub pat.data s.data

namespace Part003

/-- alexaResponseSSML translates part_003 lines 7-15. -/
def alexaResponseSSML (ssml : String) (end_ : Bool) : Json :=
  Json.obj [("version", Json.str "1.0"),
    ("response", Json.obj
      [("shouldEndSession", Json.bool end_),
       ("outputSpeech", Json.obj
         [("type", Json.str "SSML"),
          ("ssml", Json.str ssml)])])]

/-- handler translates part_003 lines 26-177. The X-Req-Id header and
all logging are observability only and are not modelled. A failed body
read, a body that is not valid JSON, and a body parsing to the null
literal (whose property access at line 77 throws) all land in the outer
catch at line 169, which answers 200 with the generic error envelope. -/
def handler (cfg : Config) (req : Req) (verifierOk : Bool) (f : FetchOutcome) :
    HttpResponse × List OutboundCall :=
  if req.method ≠ "POST" then (⟨405, Sum.inr "Method Not Allowed"⟩, [])
  else if !req.bodyReadOk then
    (⟨200, Sum.inl (alexaResponseSSML "<speak>Desculpe, houve um erro ao processar.</speak>" true)⟩, [])
  else if cfg.verifyEnabled && (!req.hasSignature || !req.hasCertUrl) then
    (⟨401, Sum.inl (alexaResponseSSML "<speak>Não foi possível validar a requisição.</speak>" true)⟩, [])
  else if cfg.verifyEnabled && !verifierOk then
    (⟨401, Sum.inl (alexaResponseSSML "<speak>Não foi possível validar a requisição.</speak>" true)⟩, [])
  else
    match req.bodyJson with
    | none =>
      (⟨200, Sum.inl (alexaResponseSSML "<speak>Desculpe, houve um erro ao processar.</speak>" true)⟩, [])
    | some alexaReq =>
      if isNullJ alexaReq then
        (⟨200, Sum.inl (alexaResponseSSML "<speak>Desculpe, houve um erro ao processar.</speak>" true)⟩, [])
      else
        let ty := reqType alexaReq
        let intent := reqIntentName alexaReq
        let query := queryQPT alexaReq
        if jsEq ty "LaunchRequest" then
          (⟨200, Sum.inl (alexaResponseSSML "<speak>Oi! O que você quer saber?</speak>" false)⟩, [])
        else if jsEq ty "IntentRequest" && jsEq intent "AskPerplexityIntent" then
          if cfg.MAKE_WEBHOOK_URL = "" then
            (⟨500, Sum.inl (alexaResponseSSML "<speak>Configuração ausente no servidor.</speak>" true)⟩, [])
          else
            let call : OutboundCall := ⟨cfg.MAKE_WEBHOOK_URL, Json.obj [("query", query)]⟩
            match f with
            | FetchOutcome.throws =>
              (⟨200, Sum.inl (alexaResponseSSML "<speak>Desculpe, houve um erro ao processar.</speak>" true)⟩, [call])
            | FetchOutcome.result r =>
              let makeResp := makeData (FetchOutcome.result r)
              if passThru makeResp then (⟨200, Sum.inl makeResp⟩, [call])
              else
                let text := jsOrO (jsOrO (jsOrO (jsOrO (makeResp.get? "ssml")
                  (makeResp.get? "speech")) (makeResp.get? "answer"))
                  (makeResp.get? "message")) (makeResp.get? "text")
                match text with
                | some (Json.str s) =>
                  if jsTrim s = "" then
                    (⟨200, Sum.inl (alexaResponseSSML "<speak>Desculpe, não encontrei a resposta.</speak>" true)⟩, [call])
                  else
                    let ssml := if jsStartsWith (jsTrim s) "<speak>" then jsTrim s
                                else "<speak>" ++ jsTrim s ++ "</speak>"
                    (⟨200, Sum.inl (alexaResponseSSML ssml true)⟩, [call])
                | _ =>
                  (⟨200, Sum.inl (alexaResponseSSML "<speak>Desculpe, não encontrei a resposta.</speak>" true)⟩, [call])
        else
          (⟨200, Sum.inl (alexaResponseSSML "<speak>Desculpe, não entendi.</speak>" true)⟩, [])

end Part003

namespace Part000

/-- responseSSML translates part_000 lines 39-47. -/
def responseSSML (ssml : String) (end_ : Bool) : Json :=
  Json.obj [("version", Json.str "1.0"),
    ("response", Json.obj
      [("shouldEndSession", Json.bool end_),
       ("outputSpeech", Json.obj
         [("type", Json.str "SSML"),
          ("ssml", Json.str ssml)])])]

/-- responseText translates part_000 lines 49-57. -/
def responseText (text : String) (end_ : Bool) : Json :=
  Json.obj [("version", Json.str "1.0"),
    ("response", Json.obj
      [("shouldEndSession", Json.bool end_),
       ("outputSpeech", Json.obj
         [("type", Json.str "PlainText"),
          ("text", Json.str text)])])]

/-- welcome translates part_000 lines 59-68. -/
def welcome : Json :=
  Json.obj [("version", Json.str "1.0"),
    ("response", Json.obj
      [("shouldEndSession", Json.bool false),
       ("outputSpeech", Json.obj
         [("type", Json.str "SSML"),
          ("ssml", Json.str "<speak>Oi! O que você quer saber?</speak>")]),
       ("reprompt", Json.obj
         [("outputSpeech", Json.obj
           [("type", Json.str "PlainText"),
            ("text", Json.str "Pode perguntar.")])])])]

/-- sendToMake translates part_000 lines 27-36: null back when the URL
is unset, otherwise one fetch; rejection, a non-ok status, and a
response body that r.json() cannot parse all throw. -/
def sendToMake (cfg : Config) (query : Json) (f : FetchOutcome) :
    Except Unit (Option Json) × List OutboundCall :=
  if cfg.MAKE_WEBHOOK_URL = "" then (Except.ok none, [])
  else
    let call : OutboundCall := ⟨cfg.MAKE_WEBHOOK_URL, Json.obj [("query", query)]⟩
    match f with
    | FetchOutcome.throws => (Except.error (), [call])
    | FetchOutcome.result r =>
      if !r.ok then (Except.error (), [call])
      else
        match r.bodyJson with
        | none => (Except.error (), [call])
        | some v => (Except.ok (some v), [call])

/-- handler translates part_000 lines 71-172. A failed body read, a
verifier rejection, a body that is not valid JSON, and a body parsing
to the null literal (property access at line 104 throws) all land in
the outer catch at line 166, answering 200 with the generic error
envelope; errors inside the intent branch (including calling
toLowerCase on a non-string query at line 148) land in the inner catch
at line 156. -/
def handler (cfg : Config) (req : Req) (verifierOk : Bool) (f : FetchOutcome) :
    HttpResponse × List OutboundCall :=
  if req.method ≠ "POST" then (⟨405, Sum.inr "Method Not Allowed"⟩, [])
  else if !req.bodyReadOk then
    (⟨200, Sum.inl (responseSSML "<speak>Desculpe, houve um erro ao processar.</speak>" true)⟩, [])
  else if cfg.verifyEnabled && (!req.hasSignature || !req.hasCertUrl) then
    (⟨200, Sum.inl (responseSSML "<speak>Não foi possível validar a requisição.</speak>" true)⟩, [])
  else if cfg.verifyEnabled && !verifierOk then
    (⟨200, Sum.inl (responseSSML "<speak>Desculpe, houve um erro ao processar.</speak>" true)⟩, [])
  else
    match req.bodyJson with
    | none =>
      (⟨200, Sum.inl (responseSSML "<speak>Desculpe, houve um erro ao processar.</speak>" true)⟩, [])
    | some alexaReq =>
      if isNullJ alexaReq then
        (⟨200, Sum.inl (responseSSML "<speak>Desculpe, houve um erro ao processar.</speak>" true)⟩, [])
      else
        let ty := reqType alexaReq
        let intent := reqIntentName alexaReq
        let query := queryQS alexaReq
        if jsEq ty "LaunchRequest" then (⟨200, Sum.inl welcome⟩, [])
        else if jsEq ty "IntentRequest" && jsEq intent "AskPerplexityIntent" then
          if cfg.MAKE_WEBHOOK_URL ≠ "" then
            match sendToMake cfg query f with
            | (Except.error _, calls) =>
              (⟨200, Sum.inl (responseSSML "<speak>Desculpe, houve um erro ao processar.</speak>" true)⟩, calls)
            | (Except.ok aj, calls) =>
              let alexaJson := jvalD aj
              if truthyO (jget (alexaJson.get? "response") "outputSpeech") then
                (⟨200, Sum.inl alexaJson⟩, calls)
              else
                let text := jsOrD (jsOrO
                  (jget (jget (alexaJson.get? "response") "outputSpeech") "text")
                  (jget (jget (alexaJson.get? "response") "outputSpeech") "ssml"))
                  (Json.str "Aqui está a resposta, mas não no formato esperado.")
                (⟨200, Sum.inl (responseText (jsToString text) false)⟩, calls)
          else
            if !truthy query then
              (⟨200, Sum.inl (responseSSML "<speak>Você pode me perguntar algo como: qual é a capital de Pernambuco?</speak>" false)⟩, [])
            else
              match query with
              | Json.str s =>
                if jsIncludes (jsToLower s) "capital de pernambuco" then
                  (⟨200, Sum.inl (responseText "A capital de Pernambuco é Recife." false)⟩, [])
                else
                  (⟨200, Sum.inl (responseSSML "<speak>Desculpe, ainda não sei responder isso.</speak>" false)⟩, [])
              | _ =>
                (⟨200, Sum.inl (responseSSML "<speak>Desculpe, houve um erro ao processar.</speak>" true)⟩, [])
        else (⟨200, Sum.inl (responseText "Desculpe, não entendi." true)⟩, [])

end Part000

namespace Part001

/-- launchEnvelope translates part_001 lines 41-53. -/
def launchEnvelope : Json :=
  Json.obj [("version", Json.str "1.0"),
    ("response", Json.obj
      [("shouldEndSession", Json.bool false),
       ("outputSpeech", Json.obj
         [("type", Json.str "SSML"),
          ("ssml", Json.str "<speak>Oi! O que você quer saber?</speak>")]),
       ("reprompt", Json.obj
         [("outputSpeech", Json.obj
           [("type", Json.str "PlainText"),
            ("text", Json.str "Pode perguntar.")])])])]

/-- configErrorEnvelope translates part_001 lines 60-69. -/
def configErrorEnvelope : Json :=
  Json.obj [("version", Json.str "1.0"),
    ("response", Json.obj
      [("shouldEndSession", Json.bool true),
       ("outputSpeech", Json.obj
         [("type", Json.str "PlainText"),
          ("text", Json.str "Erro de configuração do serviço.")])])]

/-- notUnderstoodEnvelope translates part_001 lines 85-91. -/
def notUnderstoodEnvelope : Json :=
  Json.obj [("version", Json.str "1.0"),
    ("response", Json.obj
      [("shouldEndSession", Json.bool true),
       ("outputSpeech", Json.obj
         [("type", Json.str "PlainText"),
          ("text", Json.str "Desculpe, não entendi.")])])]

/-- invalidEnvelope translates the outer catch body, part_001 lines
94-100. -/
def invalidEnvelope : Json :=
  Json.obj [("version", Json.str "1.0"),
    ("response", Json.obj
      [("shouldEndSession", Json.bool true),
       ("outputSpeech", Json.obj
         [("type", Json.str "PlainText"),
          ("text", Json.str "Requisição inválida.")])])]

/-- bodyFromFramework holds when getRawBody (part_001 lines 106-117)
takes its early path: req.body is a truthy value of typeof object, that
is, an object or an array (null is falsy and excluded). -/
def bodyFromFramework (req : Req) : Bool :=
  match req.frameworkBody with
  | some (Json.obj _) => true
  | some (Json.arr _) => true
  | _ => false

/-- alexaReqOf translates the body acquisition and parse of part_001
lines 11 and 27-33: when the middleware left a truthy object in
req.body, the raw body is rebuilt from it with JSON.stringify, so the
later JSON.parse returns that same value; a streamed body that fails to
parse falls back to req.body || an empty object. -/
def alexaReqOf (req : Req) : Json :=
  match req.frameworkBody, req.bodyJson with
  | some (Json.obj fs), _ => Json.obj fs
  | some (Json.arr xs), _ => Json.arr xs
  | _, some v => v
  | some j, none => if truthy j then j else Json.obj []
  | none, none => Json.obj []

/-- handler translates part_001 lines 7-102. A stream error (when the
framework body path is not taken), a verifier rejection, a rejected
fetch and an unparseable downstream body all land in the outer catch at
line 92, answering 400 with the invalid-request envelope; a missing
signature or certificate header with verification enabled answers 400
with a plain text body via res.send at line 21. -/
def handler (cfg : Config) (req : Req) (verifierOk : Bool) (f : FetchOutcome) :
    HttpResponse × List OutboundCall :=
  if req.method ≠ "POST" then (⟨405, Sum.inr "Method Not Allowed"⟩, [])
  else if !bodyFromFramework req && !req.bodyReadOk then
    (⟨400, Sum.inl invalidEnvelope⟩, [])
  else if cfg.verifyEnabled && (!req.hasCertUrl || !req.hasSignature) then
    (⟨400, Sum.inr "missing certificate url/signature"⟩, [])
  else if cfg.verifyEnabled && !verifierOk then
    (⟨400, Sum.inl invalidEnvelope⟩, [])
  else
    let alexaReq := alexaReqOf req
    let ty := reqType alexaReq
    let intent := reqIntentName alexaReq
    let query := queryQ alexaReq
    if jsEq ty "LaunchRequest" then (⟨200, Sum.inl launchEnvelope⟩, [])
    else if jsEq ty "IntentRequest" && jsEq intent "AskPerplexityIntent" then
      if cfg.MAKE_WEBHOOK_URL = "" then (⟨500, Sum.inl configErrorEnvelope⟩, [])
      else
        let call : OutboundCall := ⟨cfg.MAKE_WEBHOOK_URL, Json.obj [("query", query)]⟩
        match f with
        | FetchOutcome.throws => (⟨400, Sum.inl invalidEnvelope⟩, [call])
        | FetchOutcome.result r =>
          match r.bodyJson with
          | none => (⟨400, Sum.inl invalidEnvelope⟩, [call])
          | some aj => (⟨200, Sum.inl aj⟩, [call])
    else (⟨200, Sum.inl notUnderstoodEnvelope⟩, [])

end Part001

namespace Part004

/-- alexaResponse translates part_004 lines 10-22: an SSML envelope
whose ssml always wraps the given text in speak tags. -/
def alexaResponse (text : String) (end_ : Bool) : Json :=
  Json.obj [("version", Json.str "1.0"),
    ("response", Json.obj
      [("shouldEndSession", Json.bool end_),
       ("outputSpeech", Json.obj
         [("type", Json.str "SSML"),
          ("ssml", Json.str ("<speak>" ++ text ++ "</speak>"))])])]

/-- handler translates part_004 lines 40-151. The raw body is read
before the try block (line 46), so a failed body read escapes the
handler as an unhandled rejection; the none result stands for that. A
body parsing to the null literal throws at the property access on line
95 and lands in the outer catch at line 145. -/
def handler (cfg : Config) (req : Req) (verifierOk : Bool) (f : FetchOutcome) :
    Option (HttpResponse × List OutboundCall) :=
  if req.method ≠ "POST" then some (⟨405, Sum.inr "Method Not Allowed"⟩, [])
  else if !req.bodyReadOk then none
  else if cfg.verifyEnabled && (!req.hasSignature || !req.hasCertUrl) then
    some (⟨400, Sum.inl (alexaResponse "Não foi possível validar a requisição." true)⟩, [])
  else if cfg.verifyEnabled && !verifierOk then
    some (⟨400, Sum.inl (alexaResponse "Não foi possível validar a requisição." true)⟩, [])
  else
    match req.bodyJson with
    | none => some (⟨400, Sum.inl (alexaResponse "Requisição inválida." true)⟩, [])
    | some alexaReq =>
      if isNullJ alexaReq then
        some (⟨500, Sum.inl (alexaResponse "Desculpe, houve um erro ao processar." true)⟩, [])
      else
        let ty := reqType alexaReq
        let intent := reqIntentName alexaReq
        let query := queryQ alexaReq
        if jsEq ty "LaunchRequest" then
          some (⟨200, Sum.inl (alexaResponse "Oi! O que você quer saber?" false)⟩, [])
        else if jsEq ty "IntentRequest" && jsEq intent "AskPerplexityIntent" then
          if cfg.MAKE_WEBHOOK_URL = "" then
            some (⟨200, Sum.inl (alexaResponse "Desculpe, estou sem conexão no momento." true)⟩, [])
          else
            let call : OutboundCall := ⟨cfg.MAKE_WEBHOOK_URL, Json.obj [("query", query)]⟩
            match f with
            | FetchOutcome.throws =>
              some (⟨200, Sum.inl (alexaResponse "Desculpe, ocorreu um erro ao processar." true)⟩, [call])
            | FetchOutcome.result r =>
              if !r.ok then
                some (⟨200, Sum.inl (alexaResponse "Desculpe, não encontrei a resposta." true)⟩, [call])
              else
                match r.bodyJson with
                | none =>
                  some (⟨200, Sum.inl (alexaResponse "Desculpe, ocorreu um erro ao processar." true)⟩, [call])
                | some aj => some (⟨200, Sum.inl aj⟩, [call])
        else some (⟨200, Sum.inl (alexaResponse "Desculpe, não entendi." true)⟩, [])

end Part004

namespace ApiAlexa

/-- launchEnvelope translates src/api_alexa.js lines 25-32. -/
def launchEnvelope : Json :=
  Json.obj [("version", Json.str "1.0"),
    ("response", Json.obj
      [("shouldEndSession", Json.bool false),
       ("outputSpeech", Json.obj
         [("type", Json.str "SSML"),
          ("ssml", Json.str "<speak>Oi! O que você quer saber?</speak>")]),
       ("reprompt", Json.obj
         [("outputSpeech", Json.obj
           [("type", Json.str "PlainText"),
            ("text", Json.str "Pode perguntar.")])])])]

/-- notUnderstoodEnvelope translates src/api_alexa.js lines 55-61. -/
def notUnderstoodEnvelope : Json :=
  Json.obj [("version", Json.str "1.0"),
    ("response", Json.obj
      [("shouldEndSession", Json.bool true),
       ("outputSpeech", Json.obj
         [("type", Json.str "PlainText"),
          ("text", Json.str "Desculpe, não entendi.")])])]

/-- invalidEnvelope translates the catch body, src/api_alexa.js lines
64-70. -/
def invalidEnvelope : Json :=
  Json.obj [("version", Json.str "1.0"),
    ("response", Json.obj
      [("shouldEndSession", Json.bool true),
       ("outputSpeech", Json.obj
         [("type", Json.str "PlainText"),
          ("text", Json.str "Requisição inválida.")])])]

/-- payloadOf translates src/api_alexa.js lines 37-41. JSON.stringify
drops members whose value is undefined, so userId and locale appear in
the serialized payload only when defined. -/
def payloadOf (alexaReq query : Json) : Json :=
  Json.obj ([("query", query)]
    ++ (match jget (jget (alexaReq.get? "session") "user") "userId" with
        | some v => [("userId", v)]
        | none => [])
    ++ (match jget (alexaReq.get? "request") "locale" with
        | some v => [("locale", v)]
        | none => []))

/-- handler translates src/api_alexa.js lines 5-72. The raw body is
read before the try (line 9), so a failed read escapes as an unhandled
rejection (none). The alexa-verifier collaborator is always invoked
(line 15, no toggle); its whole outcome, including how it treats absent
headers, is the verifierOk oracle. A verifier rejection, an unparseable
or null body, a rejected fetch and an unparseable downstream body all
land in the catch at line 62, answering 400 with the invalid-request
envelope. -/
def handler (cfg : Config) (req : Req) (verifierOk : Bool) (f : FetchOutcome) :
    Option (HttpResponse × List OutboundCall) :=
  if req.method ≠ "POST" then some (⟨405, Sum.inr "Method Not Allowed"⟩, [])
  else if !req.bodyReadOk then none
  else if !verifierOk then some (⟨400, Sum.inl invalidEnvelope⟩, [])
  else
    match req.bodyJson with
    | none => some (⟨400, Sum.inl invalidEnvelope⟩, [])
    | some alexaReq =>
      if isNullJ alexaReq then some (⟨400, Sum.inl invalidEnvelope⟩, [])
      else
        let ty := reqType alexaReq
        let intent := reqIntentName alexaReq
        let query := queryQ alexaReq
        if jsEq ty "LaunchRequest" then some (⟨200, Sum.inl launchEnvelope⟩, [])
        else if jsEq ty "IntentRequest" && jsEq intent "AskPerplexityIntent" then
          let call : OutboundCall := ⟨cfg.MAKE_WEBHOOK_URL, payloadOf alexaReq query⟩
          match f with
          | FetchOutcome.throws => some (⟨400, Sum.inl invalidEnvelope⟩, [call])
          | FetchOutcome.result r =>
            match r.bodyJson with
            | none => some (⟨400, Sum.inl invalidEnvelope⟩, [call])
            | some aj => some (⟨200, Sum.inl aj⟩, [call])
        else some (⟨200, Sum.inl notUnderstoodEnvelope⟩, [])

end ApiAlexa

/-! Concrete fixtures for witnesses and counterexamples. -/

/-- launchBody is a minimal LaunchRequest envelope. -/
def launchBody : Json :=
  Json.obj [("request", Json.obj [("type", Json.str "LaunchRequest")])]

/-- askBody is a minimal IntentRequest envelope for the primary intent
with the query slot value Hello. -/
def askBody : Json :=
  Json.obj [("request", Json.obj
    [("type", Json.str "IntentRequest"),
     ("intent", Json.obj
       [("name", Json.str "AskPerplexityIntent"),
        ("slots", Json.obj
          [("query", Json.obj [("value", Json.str "Hello")])])])])]

/-- askBodyNoSlots is an IntentRequest envelope for the primary intent
with no slots, so every query slot is missing. -/
def askBodyNoSlots : Json :=
  Json.obj [("request", Json.obj
    [("type", Json.str "IntentRequest"),
     ("intent", Json.obj [("name", Json.str "AskPerplexityIntent")])])]

/-- cfgOpen is a configuration with a webhook URL set and verification
disabled. -/
def cfgOpen : Config := ⟨"https://hook.example/make", false⟩

/-- cfgVerify is a configuration with a webhook URL set and verification
enabled. -/
def cfgVerify : Config := ⟨"https://hook.example/make", true⟩

/-- postReq builds a POST request with both verification headers, a
successful body read and the given parsed body. -/
def postReq (b : Option Json) : Req := ⟨"POST", true, true, true, b, none⟩

/-! Claim theorems. -/

/-- C9: for every LaunchRequest envelope, the handler's response has
shouldEndSession false and a non-empty speech field. Stated for the two
revisions the claim cites, src/api/alexa.js and part_004: under a POST
method, a successful body read, verification passing or disabled, and a
body whose request type is LaunchRequest, both handlers answer 200 with
their fixed launch envelope, whose shouldEndSession is false and whose
speech string is non-empty. -/
theorem c9_launch_open_session (cfg : Config) (req : Req) (verifierOk : Bool)
    (f : FetchOutcome) (j : Json)
    (hpost : req.method = "POST") (hread : req.bodyReadOk = true)
    (hv : cfg.verifyEnabled = true →
      req.hasSignature = true ∧ req.hasCertUrl = true ∧ verifierOk = true)
    (hbody : req.bodyJson = some j)
    (hty : jsEq (reqType j) "LaunchRequest" = true) :
    ((AlexaJs.handler cfg req verifierOk f).1.status = 200 ∧
      (AlexaJs.handler cfg req verifierOk f).1.body = Sum.inl AlexaJs.buildAskPrompt ∧
      envEndSession AlexaJs.buildAskPrompt = some (Json.bool false) ∧
      speechNonEmpty AlexaJs.buildAskPrompt = true) ∧
    (Part004.handler cfg req verifierOk f =
        some (⟨200, Sum.inl (Part004.alexaResponse "Oi! O que você quer saber?" false)⟩, []) ∧
      envEndSession (Part004.alexaResponse "Oi! O que você quer saber?" false)
        = some (Json.bool false) ∧
      speechNonEmpty (Part004.alexaResponse "Oi! O que você quer saber?" false) = true) := by
  have hnn : isNullJ j = false := by
    cases j <;> simp_all [isNullJ, reqType, jget, Json.get?, jsEq]
  have hvf : (cfg.verifyEnabled && (!req.hasSignature || !req.hasCertUrl || !verifierOk))
      = false := by
    cases hve : cfg.verifyEnabled with
    | false => rfl
    | true =>
      obtain ⟨h1, h2, h3⟩ := hv hve
      simp [h1, h2, h3]
  have hvf2 : (cfg.verifyEnabled && (!req.hasSignature || !req.hasCertUrl)) = false := by
    cases hve : cfg.verifyEnabled with
    | false => rfl
    | true =>
      obtain ⟨h1, h2, _⟩ := hv hve
      simp [h1, h2]
  have hvf3 : (cfg.verifyEnabled && !verifierOk) = false := by
    cases hve : cfg.verifyEnabled with
    | false => rfl
    | true =>
      obtain ⟨_, _, h3⟩ := hv hve
      simp [h3]
  constructor
  · refine ⟨?_, ?_, rfl, by decide⟩
    · simp only [AlexaJs.handler, hpost, hread, hvf, hbody, hnn, hty]
      simp
    · simp only [AlexaJs.handler, hpost, hread, hvf, hbody, hnn, hty]
      simp
  · refine ⟨?_, rfl, by decide⟩
    simp only [Part004.handler, hpost, hread, hvf2, hvf3, hbody, hnn, hty]
    simp

/-- Witness for c9_launch_open_session at a concrete launch request
with verification disabled. -/
theorem c9_launch_open_session_witness :
    ((AlexaJs.handler cfgOpen (postReq (some launchBody)) true FetchOutcome.throws).1.status = 200 ∧
      (AlexaJs.handler cfgOpen (postReq (some launchBody)) true FetchOutcome.throws).1.body
        = Sum.inl AlexaJs.buildAskPrompt ∧
      envEndSession AlexaJs.buildAskPrompt = some (Json.bool false) ∧
      speechNonEmpty AlexaJs.buildAskPrompt = true) ∧
    (Part004.handler cfgOpen (postReq (some launchBody)) true FetchOutcome.throws =
        some (⟨200, Sum.inl (Part004.alexaResponse "Oi! O que você quer saber?" false)⟩, []) ∧
      envEndSession (Part004.alexaResponse "Oi! O que você quer saber?" false)
        = some (Json.bool false) ∧
      speechNonEmpty (Part004.alexaResponse "Oi! O que você quer saber?" false) = true) :=
  c9_launch_open_session cfgOpen (postReq (some launchBody)) true FetchOutcome.throws
    launchBody rfl rfl (by decide) rfl (by decide)

/-- jsEq_false_of_jsEq: a value strictly equal to one string literal is
not strictly equal to a different literal. -/
theorem jsEq_false_of_jsEq (o : Option Json) (s t : String)
    (h : jsEq o s = true) (hst : t ≠ s) : jsEq o t = false := by
  cases o with
  | none => rfl
  | some j =>
    cases j with
    | str u =>
      have hu : u = s := by simpa [jsEq] using h
      subst hu
      simp only [jsEq, decide_eq_false_iff_not]
      exact fun hh => hst hh.symm
    | null => rfl
    | bool b => rfl
    | num n => rfl
    | arr xs => rfl
    | obj fs => rfl

/-- C2: for every request in which the downstream HTTP call throws or
times out, the handler returns the fixed generic-error envelope with
shouldEndSession true, and no exception propagates to the transport
layer. Stated for the two revisions the claim cites, src/api/alexa.js
and part_004. The hypotheses place the run on the path that reaches the
downstream call: POST, successful body read, verification passing or
disabled, a body routed to the primary intent with (for
src/api/alexa.js) a truthy query, and a configured webhook URL; the
fetch outcome throws (rejection, or the 8 second abort of
src/api/alexa.js). src/api/alexa.js answers 200 with its fixed
alexaErrorDefault envelope; part_004 answers 200 with its fixed error
envelope, and its Option result is some, so nothing escaped; both
envelopes carry shouldEndSession true. src/api/alexa.js is a total
function into one response, which is the no-propagation statement for
it. -/
theorem c2_downstream_failure_generic_error (cfg : Config) (req : Req)
    (verifierOk : Bool) (j : Json)
    (hpost : req.method = "POST") (hread : req.bodyReadOk = true)
    (hv : cfg.verifyEnabled = true →
      req.hasSignature = true ∧ req.hasCertUrl = true ∧ verifierOk = true)
    (hbody : req.bodyJson = some j)
    (hty : jsEq (reqType j) "IntentRequest" = true)
    (hint : jsEq (reqIntentName j) "AskPerplexityIntent" = true)
    (hq : truthy (queryQS j) = true)
    (hurl : cfg.MAKE_WEBHOOK_URL ≠ "") :
    ((AlexaJs.handler cfg req verifierOk FetchOutcome.throws).1
        = ⟨200, Sum.inl AlexaJs.alexaErrorDefault⟩ ∧
      envEndSession AlexaJs.alexaErrorDefault = some (Json.bool true)) ∧
    ((Part004.handler cfg req verifierOk FetchOutcome.throws).map Prod.fst
        = some ⟨200, Sum.inl (Part004.alexaResponse "Desculpe, ocorreu um erro ao processar." true)⟩ ∧
      envEndSession (Part004.alexaResponse "Desculpe, ocorreu um erro ao processar." true)
        = some (Json.bool true)) := by
  have hnn : isNullJ j = false := by
    cases j <;> simp_all [isNullJ, reqType, jget, Json.get?, jsEq]
  have hvf : (cfg.verifyEnabled && (!req.hasSignature || !req.hasCertUrl || !verifierOk))
      = false := by
    cases hve : cfg.verifyEnabled with
    | false => rfl
    | true =>
      obtain ⟨h1, h2, h3⟩ := hv hve
      simp [h1, h2, h3]
  have hvf2 : (cfg.verifyEnabled && (!req.hasSignature || !req.hasCertUrl)) = false := by
    cases hve : cfg.verifyEnabled with
    | false => rfl
    | true =>
      obtain ⟨h1, h2, _⟩ := hv hve
      simp [h1, h2]
  have hvf3 : (cfg.verifyEnabled && !verifierOk) = false := by
    cases hve : cfg.verifyEnabled with
    | false => rfl
    | true =>
      obtain ⟨_, _, h3⟩ := hv hve
      simp [h3]
  have hL : jsEq (reqType j) "LaunchRequest" = false :=
    jsEq_false_of_jsEq _ _ _ hty (by decide)
  constructor
  · refine ⟨?_, rfl⟩
    simp only [AlexaJs.handler, AlexaJs.askMake, hpost, hread, hvf, hbody, hnn, hty,
      hint, hq, hL]
    simp [hurl]
  · refine ⟨?_, rfl⟩
    simp only [Part004.handler, hpost, hread, hvf2, hvf3, hbody, hnn, hty, hint, hL]
    simp [hurl]

/-- Witness for c2_downstream_failure_generic_error at a concrete
IntentRequest with query Hello, a configured URL, verification
disabled, and a rejecting fetch. -/
theorem c2_downstream_failure_generic_error_witness :
    ((AlexaJs.handler cfgOpen (postReq (some askBody)) true FetchOutcome.throws).1
        = ⟨200, Sum.inl AlexaJs.alexaErrorDefault⟩ ∧
      envEndSession AlexaJs.alexaErrorDefault = some (Json.bool true)) ∧
    ((Part004.handler cfgOpen (postReq (some askBody)) true FetchOutcome.throws).map Prod.fst
        = some ⟨200, Sum.inl (Part004.alexaResponse "Desculpe, ocorreu um erro ao processar." true)⟩ ∧
      envEndSession (Part004.alexaResponse "Desculpe, ocorreu um erro ao processar." true)
        = some (Json.bool true)) :=
  c2_downstream_failure_generic_error cfgOpen (postReq (some askBody)) true askBody
    rfl rfl (by decide) rfl (by decide) (by decide) (by decide) (by decide)

/-- C8: for every IntentRequest with the primary intent and a non-empty
query, the handler issues exactly one outbound POST to the configured
downstream URL whose JSON body contains that query string, and never a
second attempt on failure. Stated for the two cited revisions,
src/api/alexa.js and part_003: on the primary-intent path with a truthy
query and a configured URL, and for EVERY fetch outcome (success,
rejection, non-ok status), the recorded outbound call list is exactly
one call to the configured URL whose payload's query member is the
extracted query (trimmed by String(query).trim() in src/api/alexa.js,
verbatim in part_003). A single attempt for every outcome is the
no-retry statement. -/
theorem c8_single_outbound_call (cfg : Config) (req : Req) (verifierOk : Bool)
    (f : FetchOutcome) (j : Json)
    (hpost : req.method = "POST") (hread : req.bodyReadOk = true)
    (hv : cfg.verifyEnabled = true →
      req.hasSignature = true ∧ req.hasCertUrl = true ∧ verifierOk = true)
    (hbody : req.bodyJson = some j)
    (hty : jsEq (reqType j) "IntentRequest" = true)
    (hint : jsEq (reqIntentName j) "AskPerplexityIntent" = true)
    (hq : truthy (queryQS j) = true)
    (hurl : cfg.MAKE_WEBHOOK_URL ≠ "") :
    ((AlexaJs.handler cfg req verifierOk f).2.map
        (fun c => (c.url, c.payload.get? "query"))
      = [(cfg.MAKE_WEBHOOK_URL, some (Json.str (jsTrim (jsToString (queryQS j)))))]) ∧
    ((Part003.handler cfg req verifierOk f).2.map
        (fun c => (c.url, c.payload.get? "query"))
      = [(cfg.MAKE_WEBHOOK_URL, some (queryQPT j))]) := by
  have hnn : isNullJ j = false := by
    cases j <;> simp_all [isNullJ, reqType, jget, Json.get?, jsEq]
  have hvf : (cfg.verifyEnabled && (!req.hasSignature || !req.hasCertUrl || !verifierOk))
      = false := by
    cases hve : cfg.verifyEnabled with
    | false => rfl
    | true =>
      obtain ⟨h1, h2, h3⟩ := hv hve
      simp [h1, h2, h3]
  have hvf2 : (cfg.verifyEnabled && (!req.hasSignature || !req.hasCertUrl)) = false := by
    cases hve : cfg.verifyEnabled with
    | false => rfl
    | true =>
      obtain ⟨h1, h2, _⟩ := hv hve
      simp [h1, h2]
  have hvf3 : (cfg.verifyEnabled && !verifierOk) = false := by
    cases hve : cfg.verifyEnabled with
    | false => rfl
    | true =>
      obtain ⟨_, _, h3⟩ := hv hve
      simp [h3]
  have hL : jsEq (reqType j) "LaunchRequest" = false :=
    jsEq_false_of_jsEq _ _ _ hty (by decide)
  have hq1 : jsOrJ (queryQS j) (Json.str "") = queryQS j := by
    simp [jsOrJ, hq]
  constructor
  · cases f with
    | throws =>
      simp only [AlexaJs.handler, AlexaJs.askMake, AlexaJs.askMakePayload, hpost, hread,
        hvf, hbody, hnn, hty, hint, hq, hL, hq1]
      simp [hurl, Json.get?, lookupF]
    | result r =>
      cases hok : r.ok with
      | true =>
        simp only [AlexaJs.handler, AlexaJs.askMake, AlexaJs.askMakePayload, hpost, hread,
          hvf, hbody, hnn, hty, hint, hq, hL, hq1, hok]
        simp [hurl, Json.get?, lookupF]
        repeat' split
        all_goals rfl
      | false =>
        simp only [AlexaJs.handler, AlexaJs.askMake, AlexaJs.askMakePayload, hpost, hread,
          hvf, hbody, hnn, hty, hint, hq, hL, hq1, hok]
        simp [hurl, Json.get?, lookupF]
  · cases f with
    | throws =>
      simp only [Part003.handler, hpost, hread, hvf2, hvf3, hbody, hnn, hty, hint, hL]
      simp [hurl, Json.get?, lookupF]
    | result r =>
      simp only [Part003.handler, hpost, hread, hvf2, hvf3, hbody, hnn, hty, hint, hL]
      simp [hurl, Json.get?, lookupF]
      repeat' split
      all_goals rfl

/-- Witness for c8_single_outbound_call at a concrete IntentRequest
with query Hello and a successful downstream response, together with
the evaluation of the extracted query. -/
theorem c8_single_outbound_call_witness :
    (((AlexaJs.handler cfgOpen (postReq (some askBody)) true
          (FetchOutcome.result ⟨true, 200, "ok", some (Json.obj [("text", Json.str "ok")])⟩)).2.map
        (fun c => (c.url, c.payload.get? "query"))
      = [(cfgOpen.MAKE_WEBHOOK_URL, some (Json.str (jsTrim (jsToString (queryQS askBody)))))]) ∧
    ((Part003.handler cfgOpen (postReq (some askBody)) true
          (FetchOutcome.result ⟨true, 200, "ok", some (Json.obj [("text", Json.str "ok")])⟩)).2.map
        (fun c => (c.url, c.payload.get? "query"))
      = [(cfgOpen.MAKE_WEBHOOK_URL, some (queryQPT askBody))])) ∧
    jsTrim (jsToString (queryQS askBody)) = "Hello" ∧ queryQPT askBody = Json.str "Hello" :=
  ⟨c8_single_outbound_call cfgOpen (postReq (some askBody)) true
      (FetchOutcome.result ⟨true, 200, "ok", some (Json.obj [("text", Json.str "ok")])⟩)
      askBody rfl rfl (by decide) rfl (by decide) (by decide) (by decide) (by decide),
    by decide, rfl⟩

/-- Counterexample to C7: in src/api_alexa.js (cited by the claim) an
IntentRequest for the primary intent whose query slot is missing does
not return a re-prompt and does perform a downstream call: the outbound
call list has length one, where the claim requires zero. -/
theorem c7_counterexample :
    (ApiAlexa.handler cfgOpen (postReq (some askBodyNoSlots)) true
        (FetchOutcome.result ⟨true, 200, "{}", some (Json.obj [])⟩)).map
      (fun p => p.2.length) = some 1 := rfl

/-- C7 amended: in src/api/alexa.js an IntentRequest for the primary
intent whose query (query or SearchQuery slot) is empty or missing
yields the fixed re-prompt SSML envelope with shouldEndSession false
and no outbound call; src/api_alexa.js has no empty-query check: it
always performs the one downstream call, with the (empty) extracted
query string in the payload. -/
theorem c7_amended (cfg : Config) (req : Req) (verifierOk : Bool)
    (f : FetchOutcome) (j : Json)
    (hpost : req.method = "POST") (hread : req.bodyReadOk = true)
    (hvo : verifierOk = true)
    (hv : cfg.verifyEnabled = true → req.hasSignature = true ∧ req.hasCertUrl = true)
    (hbody : req.bodyJson = some j)
    (hty : jsEq (reqType j) "IntentRequest" = true)
    (hint : jsEq (reqIntentName j) "AskPerplexityIntent" = true)
    (hq : truthy (queryQS j) = false) :
    (AlexaJs.handler cfg req verifierOk f =
        (⟨200, Sum.inl (AlexaJs.alexaSSML (Json.str "<speak>Qual é a sua pergunta?</speak>") false)⟩, []) ∧
      envEndSession (AlexaJs.alexaSSML (Json.str "<speak>Qual é a sua pergunta?</speak>") false)
        = some (Json.bool false)) ∧
    ((ApiAlexa.handler cfg req verifierOk f).map
        (fun p => p.2.map (fun c => (c.url, c.payload.get? "query")))
      = some [(cfg.MAKE_WEBHOOK_URL, some (queryQ j))]) := by
  have hnn : isNullJ j = false := by
    cases j <;> simp_all [isNullJ, reqType, jget, Json.get?, jsEq]
  have hvf : (cfg.verifyEnabled && (!req.hasSignature || !req.hasCertUrl || !verifierOk))
      = false := by
    cases hve : cfg.verifyEnabled with
    | false => rfl
    | true =>
      obtain ⟨h1, h2⟩ := hv hve
      simp [h1, h2, hvo]
  have hL : jsEq (reqType j) "LaunchRequest" = false :=
    jsEq_false_of_jsEq _ _ _ hty (by decide)
  constructor
  · refine ⟨?_, rfl⟩
    simp only [AlexaJs.handler, hpost, hread, hvf, hbody, hnn, hty, hint, hq, hL]
    simp
  · cases f with
    | throws =>
      simp only [ApiAlexa.handler, ApiAlexa.payloadOf, hpost, hread, hvo, hbody, hnn,
        hty, hint, hL]
      simp [Json.get?, lookupF]
    | result r =>
      cases hb : r.bodyJson with
      | none =>
        simp only [ApiAlexa.handler, ApiAlexa.payloadOf, hpost, hread, hvo, hbody, hnn,
          hty, hint, hL, hb]
        simp [Json.get?, lookupF]
      | some aj =>
        simp only [ApiAlexa.handler, ApiAlexa.payloadOf, hpost, hread, hvo, hbody, hnn,
          hty, hint, hL, hb]
        simp [Json.get?, lookupF]

/-- Witness for c7_amended at a concrete IntentRequest with no slots,
together with the evaluation of the extracted query to the empty
string. -/
theorem c7_amended_witness :
    ((AlexaJs.handler cfgOpen (postReq (some askBodyNoSlots)) true FetchOutcome.throws =
        (⟨200, Sum.inl (AlexaJs.alexaSSML (Json.str "<speak>Qual é a sua pergunta?</speak>") false)⟩, []) ∧
      envEndSession (AlexaJs.alexaSSML (Json.str "<speak>Qual é a sua pergunta?</speak>") false)
        = some (Json.bool false)) ∧
    ((ApiAlexa.handler cfgOpen (postReq (some askBodyNoSlots)) true FetchOutcome.throws).map
        (fun p => p.2.map (fun c => (c.url, c.payload.get? "query")))
      = some [(cfgOpen.MAKE_WEBHOOK_URL, some (queryQ askBodyNoSlots))])) ∧
    queryQ askBodyNoSlots = Json.str "" :=
  ⟨c7_amended cfgOpen (postReq (some askBodyNoSlots)) true FetchOutcome.throws
      askBodyNoSlots rfl rfl rfl (by decide) rfl (by decide) (by decide) (by decide),
    rfl⟩

/-- Counterexample to C3: in part_000 (cited by the claim), with
verification enabled and the signature header absent, the handler
answers with HTTP status 200, which is not in the 4xx range the claim
requires. -/
theorem c3_counterexample :
    (Part000.handler cfgVerify ⟨"POST", false, true, true, some launchBody, none⟩ true
        FetchOutcome.throws).1.status = 200 ∧
    ¬(400 ≤ (Part000.handler cfgVerify ⟨"POST", false, true, true, some launchBody, none⟩ true
          FetchOutcome.throws).1.status ∧
      (Part000.handler cfgVerify ⟨"POST", false, true, true, some launchBody, none⟩ true
          FetchOutcome.throws).1.status < 500) := by decide

/-- C3 amended: with verification enabled and a signature or
certificate-chain header absent, no revision proceeds to business logic
(no outbound call is recorded, whatever the fetch oracle would have
answered): src/api/alexa.js answers 400, part_003 401 and part_004 400,
each with its fixed non-committal speech envelope; part_000 answers the
non-committal envelope with status 200; part_001 answers 400 with the
plain text body "missing certificate url/signature" rather than an
envelope. -/
theorem c3_amended (cfg : Config) (req : Req) (verifierOk : Bool) (f : FetchOutcome)
    (hpost : req.method = "POST") (hread : req.bodyReadOk = true)
    (hven : cfg.verifyEnabled = true)
    (hmiss : req.hasSignature = false ∨ req.hasCertUrl = false) :
    (AlexaJs.handler cfg req verifierOk f =
      (⟨400, Sum.inl (AlexaJs.alexaPlain (Json.str "Não foi possível validar a requisição.") true)⟩, [])) ∧
    (Part003.handler cfg req verifierOk f =
      (⟨401, Sum.inl (Part003.alexaResponseSSML "<speak>Não foi possível validar a requisição.</speak>" true)⟩, [])) ∧
    (Part004.handler cfg req verifierOk f =
      some (⟨400, Sum.inl (Part004.alexaResponse "Não foi possível validar a requisição." true)⟩, [])) ∧
    (Part000.handler cfg req verifierOk f =
      (⟨200, Sum.inl (Part000.responseSSML "<speak>Não foi possível validar a requisição.</speak>" true)⟩, [])) ∧
    (Part001.handler cfg req verifierOk f =
      (⟨400, Sum.inr "missing certificate url/signature"⟩, [])) := by
  have hm : (!req.hasSignature || !req.hasCertUrl) = true := by
    rcases hmiss with h | h <;> simp [h]
  have hm2 : (!req.hasCertUrl || !req.hasSignature) = true := by
    rcases hmiss with h | h <;> simp [h]
  have hm3 : (!req.hasSignature || !req.hasCertUrl || !verifierOk) = true := by
    rcases hmiss with h | h <;> simp [h]
  refine ⟨?_, ?_, ?_, ?_, ?_⟩
  · simp only [AlexaJs.handler, hpost, hread, hven, hm3]
    simp
  · simp only [Part003.handler, hpost, hread, hven, hm]
    simp
  · simp only [Part004.handler, hpost, hread, hven, hm]
    simp
  · simp only [Part000.handler, hpost, hread, hven, hm]
    simp
  · simp only [Part001.handler, hpost, hread, hven, hm2]
    simp

/-- Witness for c3_amended at a concrete POST request with verification
enabled and the signature header absent. -/
theorem c3_amended_witness :
    (AlexaJs.handler cfgVerify ⟨"POST", false, true, true, some launchBody, none⟩ true
        FetchOutcome.throws =
      (⟨400, Sum.inl (AlexaJs.alexaPlain (Json.str "Não foi possível validar a requisição.") true)⟩, [])) ∧
    (Part003.handler cfgVerify ⟨"POST", false, true, true, some launchBody, none⟩ true
        FetchOutcome.throws =
      (⟨401, Sum.inl (Part003.alexaResponseSSML "<speak>Não foi possível validar a requisição.</speak>" true)⟩, [])) ∧
    (Part004.handler cfgVerify ⟨"POST", false, true, true, some launchBody, none⟩ true
        FetchOutcome.throws =
      some (⟨400, Sum.inl (Part004.alexaResponse "Não foi possível validar a requisição." true)⟩, [])) ∧
    (Part000.handler cfgVerify ⟨"POST", false, true, true, some launchBody, none⟩ true
        FetchOutcome.throws =
      (⟨200, Sum.inl (Part000.responseSSML "<speak>Não foi possível validar a requisição.</speak>" true)⟩, [])) ∧
    (Part001.handler cfgVerify ⟨"POST", false, true, true, some launchBody, none⟩ true
        FetchOutcome.throws =
      (⟨400, Sum.inr "missing certificate url/signature"⟩, [])) :=
  c3_amended cfgVerify ⟨"POST", false, true, true, some launchBody, none⟩ true
    FetchOutcome.throws rfl rfl rfl (Or.inl rfl)

/-- Counterexample to C4: in part_001 (cited by the claim), a POST body
that is not valid JSON is not answered with a 4xx envelope: the parse
failure falls back to the (absent) middleware body, the handler
proceeds, and it answers 200 with the not-understood envelope. -/
theorem c4_counterexample :
    (Part001.handler cfgOpen ⟨"POST", true, true, true, none, none⟩ true
        FetchOutcome.throws).1
      = ⟨200, Sum.inl Part001.notUnderstoodEnvelope⟩ ∧
    ¬(400 ≤ (Part001.handler cfgOpen ⟨"POST", true, true, true, none, none⟩ true
          FetchOutcome.throws).1.status ∧
      (Part001.handler cfgOpen ⟨"POST", true, true, true, none, none⟩ true
          FetchOutcome.throws).1.status < 500) :=
  ⟨rfl, by decide⟩

/-- C4 amended: in src/api/alexa.js a POST whose body is not valid JSON
(after verification passes or is disabled) is answered 400 with the
well-formed invalid-request envelope, shouldEndSession true; in
part_001 a malformed raw body is not rejected: the handler falls back
to the middleware-parsed req.body or an empty object and proceeds,
answering 200 with the not-understood envelope when nothing routable
results. -/
theorem c4_amended (cfg : Config) (req : Req) (verifierOk : Bool) (f : FetchOutcome)
    (hpost : req.method = "POST") (hread : req.bodyReadOk = true)
    (hv : cfg.verifyEnabled = true →
      req.hasSignature = true ∧ req.hasCertUrl = true ∧ verifierOk = true)
    (hbody : req.bodyJson = none)
    (hfb : req.frameworkBody = none) :
    (AlexaJs.handler cfg req verifierOk f =
        (⟨400, Sum.inl (AlexaJs.alexaError "Requisição inválida.")⟩, []) ∧
      envEndSession (AlexaJs.alexaError "Requisição inválida.") = some (Json.bool true) ∧
      isEnvelope (AlexaJs.alexaError "Requisição inválida.") = true) ∧
    (Part001.handler cfg req verifierOk f =
      (⟨200, Sum.inl Part001.notUnderstoodEnvelope⟩, [])) := by
  have hvf : (cfg.verifyEnabled && (!req.hasSignature || !req.hasCertUrl || !verifierOk))
      = false := by
    cases hve : cfg.verifyEnabled with
    | false => rfl
    | true =>
      obtain ⟨h1, h2, h3⟩ := hv hve
      simp [h1, h2, h3]
  have hvf2 : (cfg.verifyEnabled && (!req.hasCertUrl || !req.hasSignature)) = false := by
    cases hve : cfg.verifyEnabled with
    | false => rfl
    | true =>
      obtain ⟨h1, h2, _⟩ := hv hve
      simp [h1, h2]
  have hvf3 : (cfg.verifyEnabled && !verifierOk) = false := by
    cases hve : cfg.verifyEnabled with
    | false => rfl
    | true =>
      obtain ⟨_, _, h3⟩ := hv hve
      simp [h3]
  constructor
  · refine ⟨?_, rfl, by decide⟩
    simp only [AlexaJs.handler, hpost, hread, hvf, hbody]
    simp
  · simp only [Part001.handler, Part001.alexaReqOf, hpost, hread, hvf2, hvf3, hbody, hfb]
    simp [reqType, reqIntentName, jget, Json.get?, jsEq, lookupF]

/-- Witness for c4_amended at a concrete POST request with a malformed
body, no middleware body, and verification disabled. -/
theorem c4_amended_witness :
    (AlexaJs.handler cfgOpen ⟨"POST", true, true, true, none, none⟩ true
        FetchOutcome.throws =
        (⟨400, Sum.inl (AlexaJs.alexaError "Requisição inválida.")⟩, []) ∧
      envEndSession (AlexaJs.alexaError "Requisição inválida.") = some (Json.bool true) ∧
      isEnvelope (AlexaJs.alexaError "Requisição inválida.") = true) ∧
    (Part001.handler cfgOpen ⟨"POST", true, true, true, none, none⟩ true
        FetchOutcome.throws =
      (⟨200, Sum.inl Part001.notUnderstoodEnvelope⟩, [])) :=
  c4_amended cfgOpen ⟨"POST", true, true, true, none, none⟩ true FetchOutcome.throws
    rfl rfl (by decide) rfl rfl

/-- envNoSpeech is a downstream object of the claimed pass-through
shape, a version member and a response member, but without an
outputSpeech inside the response. -/
def envNoSpeech : Json :=
  Json.obj [("version", Json.str "1.0"),
    ("response", Json.obj [("shouldEndSession", Json.bool true)])]

/-- fullEnv is a complete Outbound Envelope as a downstream response. -/
def fullEnv : Json :=
  Json.obj [("version", Json.str "1.0"),
    ("response", Json.obj
      [("shouldEndSession", Json.bool true),
       ("outputSpeech", Json.obj
         [("type", Json.str "PlainText"), ("text", Json.str "Resposta")])])]

/-- Counterexample to C5: in part_000 (cited by the claim), a
downstream response carrying a version member and a response member is
not returned unchanged when the response has no outputSpeech: the
handler instead answers with its fixed unexpected-format text
envelope. -/
theorem c5_counterexample :
    (Part000.handler cfgOpen (postReq (some askBody)) true
        (FetchOutcome.result ⟨true, 200, "raw", some envNoSpeech⟩)).1.body
      = Sum.inl (Part000.responseText "Aqui está a resposta, mas não no formato esperado." false) ∧
    (Part000.handler cfgOpen (postReq (some askBody)) true
        (FetchOutcome.result ⟨true, 200, "raw", some envNoSpeech⟩)).1.body
      ≠ Sum.inl envNoSpeech := by
  refine ⟨rfl, ?_⟩
  intro h
  have e : (Part000.handler cfgOpen (postReq (some askBody)) true
      (FetchOutcome.result ⟨true, 200, "raw", some envNoSpeech⟩)).1.body
      = Sum.inl (Part000.responseText "Aqui está a resposta, mas não no formato esperado." false) := rfl
  rw [e] at h
  simp [Part000.responseText, envNoSpeech] at h

/-- C5 amended: a downstream body parsing to an object with truthy
version and response members is passed through unchanged, at the JSON
value level, by src/api/alexa.js and part_003; part_000 instead
requires response.outputSpeech to be present, and passes the object
through unchanged exactly in that case. -/
theorem c5_amended (cfg : Config) (req : Req) (verifierOk : Bool)
    (r : FetchResult) (j d : Json)
    (hpost : req.method = "POST") (hread : req.bodyReadOk = true)
    (hv : cfg.verifyEnabled = true →
      req.hasSignature = true ∧ req.hasCertUrl = true ∧ verifierOk = true)
    (hbody : req.bodyJson = some j)
    (hty : jsEq (reqType j) "IntentRequest" = true)
    (hint : jsEq (reqIntentName j) "AskPerplexityIntent" = true)
    (hq : truthy (queryQS j) = true)
    (hurl : cfg.MAKE_WEBHOOK_URL ≠ "")
    (hok : r.ok = true) (hbj : r.bodyJson = some d)
    (hd : passThru d = true) :
    (AlexaJs.handler cfg req verifierOk (FetchOutcome.result r)).1
      = ⟨200, Sum.inl d⟩ ∧
    (Part003.handler cfg req verifierOk (FetchOutcome.result r)).1
      = ⟨200, Sum.inl d⟩ ∧
    (truthyO (jget (d.get? "response") "outputSpeech") = true →
      (Part000.handler cfg req verifierOk (FetchOutcome.result r)).1
        = ⟨200, Sum.inl d⟩) := by
  have hnn : isNullJ j = false := by
    cases j <;> simp_all [isNullJ, reqType, jget, Json.get?, jsEq]
  have hvf : (cfg.verifyEnabled && (!req.hasSignature || !req.hasCertUrl || !verifierOk))
      = false := by
    cases hve : cfg.verifyEnabled with
    | false => rfl
    | true =>
      obtain ⟨h1, h2, h3⟩ := hv hve
      simp [h1, h2, h3]
  have hvf2 : (cfg.verifyEnabled && (!req.hasSignature || !req.hasCertUrl)) = false := by
    cases hve : cfg.verifyEnabled with
    | false => rfl
    | true =>
      obtain ⟨h1, h2, _⟩ := hv hve
      simp [h1, h2]
  have hvf3 : (cfg.verifyEnabled && !verifierOk) = false := by
    cases hve : cfg.verifyEnabled with
    | false => rfl
    | true =>
      obtain ⟨_, _, h3⟩ := hv hve
      simp [h3]
  have hL : jsEq (reqType j) "LaunchRequest" = false :=
    jsEq_false_of_jsEq _ _ _ hty (by decide)
  have hmd : makeData (FetchOutcome.result r) = d := by
    simp [makeData, hbj]
  refine ⟨?_, ?_, fun hos => ?_⟩
  · simp only [AlexaJs.handler, AlexaJs.askMake, hpost, hread, hvf, hbody, hnn, hty,
      hint, hq, hL, hok, hmd, hd]
    simp [hurl, hd]
  · simp only [Part003.handler, hpost, hread, hvf2, hvf3, hbody, hnn, hty, hint, hL,
      hmd, hd]
    simp [hurl, hd]
  · simp only [Part000.handler, Part000.sendToMake, hpost, hread, hvf2, hvf3, hbody,
      hnn, hty, hint, hL, hok, hbj]
    simp [hurl, jvalD, hos]

/-- Witness for c5_amended at a concrete IntentRequest and a downstream
body that is a complete Outbound Envelope. -/
theorem c5_amended_witness :
    (AlexaJs.handler cfgOpen (postReq (some askBody)) true
        (FetchOutcome.result ⟨true, 200, "raw", some fullEnv⟩)).1
      = ⟨200, Sum.inl fullEnv⟩ ∧
    (Part003.handler cfgOpen (postReq (some askBody)) true
        (FetchOutcome.result ⟨true, 200, "raw", some fullEnv⟩)).1
      = ⟨200, Sum.inl fullEnv⟩ ∧
    (truthyO (jget (fullEnv.get? "response") "outputSpeech") = true →
      (Part000.handler cfgOpen (postReq (some askBody)) true
          (FetchOutcome.result ⟨true, 200, "raw", some fullEnv⟩)).1
        = ⟨200, Sum.inl fullEnv⟩) :=
  c5_amended cfgOpen (postReq (some askBody)) true ⟨true, 200, "raw", some fullEnv⟩
    askBody fullEnv rfl rfl (by decide) rfl (by decide) (by decide) (by decide)
    (by decide) rfl rfl (by decide)

/-- Counterexample to C6: in src/api/alexa.js (cited by the claim), a
downstream response parsing to an object carrying only a text member
does not produce an SSML envelope: the output is the PlainText envelope
alexaPlain, whose outputSpeech type is PlainText and which has no ssml
member. -/
theorem c6_counterexample :
    (AlexaJs.handler cfgOpen (postReq (some askBody)) true
        (FetchOutcome.result ⟨true, 200, "x", some (Json.obj [("text", Json.str "Hello")])⟩)).1.body
      = Sum.inl (AlexaJs.alexaPlain (Json.str "Hello") true) ∧
    envSpeechType (AlexaJs.alexaPlain (Json.str "Hello") true) = some (Json.str "PlainText") ∧
    envSsml (AlexaJs.alexaPlain (Json.str "Hello") true) = none :=
  ⟨rfl, rfl, rfl⟩

/-- C6 amended: for a downstream body parsing to an object carrying
only a text member whose trim is non-empty, part_003 answers an SSML
envelope wrapping the trimmed text, while src/api/alexa.js answers a
PlainText envelope carrying the text. -/
theorem c6_amended (cfg : Config) (req : Req) (verifierOk : Bool)
    (r : FetchResult) (j : Json) (s : String)
    (hpost : req.method = "POST") (hread : req.bodyReadOk = true)
    (hv : cfg.verifyEnabled = true →
      req.hasSignature = true ∧ req.hasCertUrl = true ∧ verifierOk = true)
    (hbody : req.bodyJson = some j)
    (hty : jsEq (reqType j) "IntentRequest" = true)
    (hint : jsEq (reqIntentName j) "AskPerplexityIntent" = true)
    (hq : truthy (queryQS j) = true)
    (hurl : cfg.MAKE_WEBHOOK_URL ≠ "")
    (hok : r.ok = true)
    (hbj : r.bodyJson = some (Json.obj [("text", Json.str s)]))
    (hs : jsTrim s ≠ "") :
    (Part003.handler cfg req verifierOk (FetchOutcome.result r)).1
      = ⟨200, Sum.inl (Part003.alexaResponseSSML
          (if jsStartsWith (jsTrim s) "<speak>" then jsTrim s
           else "<speak>" ++ jsTrim s ++ "</speak>") true)⟩ ∧
    (AlexaJs.handler cfg req verifierOk (FetchOutcome.result r)).1
      = ⟨200, Sum.inl (AlexaJs.alexaPlain (Json.str s) true)⟩ := by
  have hsne : s ≠ "" := by
    intro h
    exact hs (by rw [h]; rfl)
  have hnn : isNullJ j = false := by
    cases j <;> simp_all [isNullJ, reqType, jget, Json.get?, jsEq]
  have hvf : (cfg.verifyEnabled && (!req.hasSignature || !req.hasCertUrl || !verifierOk))
      = false := by
    cases hve : cfg.verifyEnabled with
    | false => rfl
    | true =>
      obtain ⟨h1, h2, h3⟩ := hv hve
      simp [h1, h2, h3]
  have hvf2 : (cfg.verifyEnabled && (!req.hasSignature || !req.hasCertUrl)) = false := by
    cases hve : cfg.verifyEnabled with
    | false => rfl
    | true =>
      obtain ⟨h1, h2, _⟩ := hv hve
      simp [h1, h2]
  have hvf3 : (cfg.verifyEnabled && !verifierOk) = false := by
    cases hve : cfg.verifyEnabled with
    | false => rfl
    | true =>
      obtain ⟨_, _, h3⟩ := hv hve
      simp [h3]
  have hL : jsEq (reqType j) "LaunchRequest" = false :=
    jsEq_false_of_jsEq _ _ _ hty (by decide)
  have hmd : makeData (FetchOutcome.result r)
      = Json.obj [("text", Json.str s)] := by
    simp [makeData, hbj]
  constructor
  · simp only [Part003.handler, hpost, hread, hvf2, hvf3, hbody, hnn, hty, hint, hL, hmd]
    simp [hurl, passThru, truthy, truthyO, Json.get?, lookupF, jsOrO, hs, hsne]
  · simp only [AlexaJs.handler, AlexaJs.askMake, hpost, hread, hvf, hbody, hnn, hty,
      hint, hq, hL, hok, hmd]
    simp [hurl, passThru, truthy, truthyO, Json.get?, lookupF, jvalD, hsne]

/-- Witness for c6_amended at a concrete IntentRequest and the
downstream body with only text Hello, with the SSML wrap evaluated. -/
theorem c6_amended_witness :
    ((Part003.handler cfgOpen (postReq (some askBody)) true
        (FetchOutcome.result ⟨true, 200, "x", some (Json.obj [("text", Json.str "Hello")])⟩)).1
      = ⟨200, Sum.inl (Part003.alexaResponseSSML
          (if jsStartsWith (jsTrim "Hello") "<speak>" then jsTrim "Hello"
           else "<speak>" ++ jsTrim "Hello" ++ "</speak>") true)⟩ ∧
    (AlexaJs.handler cfgOpen (postReq (some askBody)) true
        (FetchOutcome.result ⟨true, 200, "x", some (Json.obj [("text", Json.str "Hello")])⟩)).1
      = ⟨200, Sum.inl (AlexaJs.alexaPlain (Json.str "Hello") true)⟩) ∧
    (if jsStartsWith (jsTrim "Hello") "<speak>" then jsTrim "Hello"
     else "<speak>" ++ jsTrim "Hello" ++ "</speak>") = "<speak>Hello</speak>" :=
  ⟨c6_amended cfgOpen (postReq (some askBody)) true
      ⟨true, 200, "x", some (Json.obj [("text", Json.str "Hello")])⟩ askBody "Hello"
      rfl rfl (by decide) rfl (by decide) (by decide) (by decide) (by decide) rfl rfl
      (by decide),
    by decide⟩

/-- bodyIsEnvelope holds of a written response body when it is a JSON
body matching the Outbound Envelope shape. -/
def bodyIsEnvelope : Sum Json String → Bool
  | Sum.inl e => isEnvelope e
  | Sum.inr _ => false

/-- isEnvelope_alexaPlain: every alexaPlain value matches the Outbound
Envelope shape. -/
theorem isEnvelope_alexaPlain (t : Json) (b : Bool) :
    isEnvelope (AlexaJs.alexaPlain t b) = true := rfl

/-- isEnvelope_alexaSSML: every alexaSSML value matches the Outbound
Envelope shape. -/
theorem isEnvelope_alexaSSML (t : Json) (b : Bool) :
    isEnvelope (AlexaJs.alexaSSML t b) = true := rfl

/-- isEnvelope_alexaError: every alexaError value matches the Outbound
Envelope shape. -/
theorem isEnvelope_alexaError (t : String) :
    isEnvelope (AlexaJs.alexaError t) = true := rfl

/-- isEnvelope_alexaErrorDefault: the default error envelope matches
the Outbound Envelope shape. -/
theorem isEnvelope_alexaErrorDefault : isEnvelope AlexaJs.alexaErrorDefault = true := rfl

/-- isEnvelope_buildAskPrompt: the launch prompt envelope matches the
Outbound Envelope shape. -/
theorem isEnvelope_buildAskPrompt : isEnvelope AlexaJs.buildAskPrompt = true := rfl

/-- isEnvelope_part003SSML: every part_003 SSML response value matches
the Outbound Envelope shape. -/
theorem isEnvelope_part003SSML (t : String) (b : Bool) :
    isEnvelope (Part003.alexaResponseSSML t b) = true := rfl

/-- alexaJs_bodyEnv: every POST response body of src/api/alexa.js is a
JSON envelope, under the pass-through trust assumption. -/
theorem alexaJs_bodyEnv (cfg : Config) (req : Req) (verifierOk : Bool)
    (f : FetchOutcome)
    (hpost : req.method = "POST")
    (htrust : passThru (makeData f) = true → isEnvelope (makeData f) = true) :
    bodyIsEnvelope (AlexaJs.handler cfg req verifierOk f).1.body = true := by
  cases hr : req.bodyReadOk with
  | false =>
    simp only [AlexaJs.handler, hpost, hr]
    first
      | rfl
      | simp_all [bodyIsEnvelope, isEnvelope_alexaPlain, isEnvelope_alexaSSML,
          isEnvelope_alexaError, isEnvelope_alexaErrorDefault, isEnvelope_buildAskPrompt]
  | true =>
  cases hvf : (cfg.verifyEnabled && (!req.hasSignature || !req.hasCertUrl || !verifierOk)) with
  | true =>
    simp only [AlexaJs.handler, hpost, hr, hvf]
    first
      | rfl
      | simp_all [bodyIsEnvelope, isEnvelope_alexaPlain, isEnvelope_alexaSSML,
          isEnvelope_alexaError, isEnvelope_alexaErrorDefault, isEnvelope_buildAskPrompt]
  | false =>
  cases hbj : req.bodyJson with
  | none =>
    simp only [AlexaJs.handler, hpost, hr, hvf, hbj]
    first
      | rfl
      | simp_all [bodyIsEnvelope, isEnvelope_alexaPlain, isEnvelope_alexaSSML,
          isEnvelope_alexaError, isEnvelope_alexaErrorDefault, isEnvelope_buildAskPrompt]
  | some j =>
  cases hnul : isNullJ j with
  | true =>
    simp only [AlexaJs.handler, hpost, hr, hvf, hbj, hnul]
    first
      | rfl
      | simp_all [bodyIsEnvelope, isEnvelope_alexaPlain, isEnvelope_alexaSSML,
          isEnvelope_alexaError, isEnvelope_alexaErrorDefault, isEnvelope_buildAskPrompt]
  | false =>
  cases hla : jsEq (reqType j) "LaunchRequest" with
  | true =>
    simp only [AlexaJs.handler, hpost, hr, hvf, hbj, hnul, hla]
    first
      | rfl
      | simp_all [bodyIsEnvelope, isEnvelope_alexaPlain, isEnvelope_alexaSSML,
          isEnvelope_alexaError, isEnvelope_alexaErrorDefault, isEnvelope_buildAskPrompt]
  | false =>
  cases hir : jsEq (reqType j) "IntentRequest" with
  | false =>
    simp only [AlexaJs.handler, hpost, hr, hvf, hbj, hnul, hla, hir]
    first
      | rfl
      | simp_all [bodyIsEnvelope, isEnvelope_alexaPlain, isEnvelope_alexaSSML,
          isEnvelope_alexaError, isEnvelope_alexaErrorDefault, isEnvelope_buildAskPrompt]
  | true =>
  cases hin : jsEq (reqIntentName j) "AskPerplexityIntent" with
  | false =>
    simp only [AlexaJs.handler, hpost, hr, hvf, hbj, hnul, hla, hir, hin]
    first
      | rfl
      | simp_all [bodyIsEnvelope, isEnvelope_alexaPlain, isEnvelope_alexaSSML,
          isEnvelope_alexaError, isEnvelope_alexaErrorDefault, isEnvelope_buildAskPrompt]
  | true =>
  cases hq : truthy (queryQS j) with
  | false =>
    simp only [AlexaJs.handler, hpost, hr, hvf, hbj, hnul, hla, hir, hin, hq]
    first
      | rfl
      | simp_all [bodyIsEnvelope, isEnvelope_alexaPlain, isEnvelope_alexaSSML,
          isEnvelope_alexaError, isEnvelope_alexaErrorDefault, isEnvelope_buildAskPrompt]
  | true =>
  by_cases hu : cfg.MAKE_WEBHOOK_URL = ""
  · simp only [AlexaJs.handler, AlexaJs.askMake, hpost, hr, hvf, hbj, hnul, hla, hir,
      hin, hq, if_pos hu]
    first
      | rfl
      | simp_all [bodyIsEnvelope, isEnvelope_alexaPlain, isEnvelope_alexaSSML,
          isEnvelope_alexaError, isEnvelope_alexaErrorDefault, isEnvelope_buildAskPrompt]
  · cases f with
    | throws =>
      simp only [AlexaJs.handler, AlexaJs.askMake, hpost, hr, hvf, hbj, hnul, hla, hir,
        hin, hq, if_neg hu]
      first
        | rfl
        | simp_all [bodyIsEnvelope, isEnvelope_alexaPlain, isEnvelope_alexaSSML,
            isEnvelope_alexaError, isEnvelope_alexaErrorDefault, isEnvelope_buildAskPrompt]
    | result r =>
      cases hok : r.ok with
      | false =>
        simp only [AlexaJs.handler, AlexaJs.askMake, hpost, hr, hvf, hbj, hnul, hla,
          hir, hin, hq, if_neg hu, hok]
        first
          | rfl
          | simp_all [bodyIsEnvelope, isEnvelope_alexaPlain, isEnvelope_alexaSSML,
              isEnvelope_alexaError, isEnvelope_alexaErrorDefault, isEnvelope_buildAskPrompt]
      | true =>
        cases hpt : passThru (makeData (FetchOutcome.result r)) with
        | true =>
          simp only [AlexaJs.handler, AlexaJs.askMake, hpost, hr, hvf, hbj, hnul, hla,
            hir, hin, hq, if_neg hu, hok, hpt]
          simp [hpt]
          simp only [bodyIsEnvelope]
          exact htrust hpt
        | false =>
          cases hss : truthyO ((makeData (FetchOutcome.result r)).get? "ssml") with
          | true =>
            simp only [AlexaJs.handler, AlexaJs.askMake, hpost, hr, hvf, hbj, hnul,
              hla, hir, hin, hq, if_neg hu, hok, hpt, hss]
            first
              | rfl
              | simp_all [bodyIsEnvelope, isEnvelope_alexaPlain, isEnvelope_alexaSSML,
                  isEnvelope_alexaError, isEnvelope_alexaErrorDefault, isEnvelope_buildAskPrompt]
          | false =>
            cases hst : truthyO ((makeData (FetchOutcome.result r)).get? "text") with
            | true =>
              simp only [AlexaJs.handler, AlexaJs.askMake, hpost, hr, hvf, hbj, hnul,
                hla, hir, hin, hq, if_neg hu, hok, hpt, hss, hst]
              first
                | rfl
                | simp_all [bodyIsEnvelope, isEnvelope_alexaPlain, isEnvelope_alexaSSML,
                    isEnvelope_alexaError, isEnvelope_alexaErrorDefault, isEnvelope_buildAskPrompt]
            | false =>
              simp only [AlexaJs.handler, AlexaJs.askMake, hpost, hr, hvf, hbj, hnul,
                hla, hir, hin, hq, if_neg hu, hok, hpt, hss, hst]
              first
                | rfl
                | simp_all [bodyIsEnvelope, isEnvelope_alexaPlain, isEnvelope_alexaSSML,
                    isEnvelope_alexaError, isEnvelope_alexaErrorDefault, isEnvelope_buildAskPrompt]

/-- part003_bodyEnv: every POST response body of part_003 is a JSON
envelope, under the pass-through trust assumption. -/
theorem part003_bodyEnv (cfg : Config) (req : Req) (verifierOk : Bool)
    (f : FetchOutcome)
    (hpost : req.method = "POST")
    (htrust : passThru (makeData f) = true → isEnvelope (makeData f) = true) :
    bodyIsEnvelope (Part003.handler cfg req verifierOk f).1.body = true := by
  cases hr : req.bodyReadOk with
  | false =>
    simp only [Part003.handler, hpost, hr]
    first
      | rfl
      | simp_all [bodyIsEnvelope, isEnvelope_part003SSML]
  | true =>
  cases hvf : (cfg.verifyEnabled && (!req.hasSignature || !req.hasCertUrl)) with
  | true =>
    simp only [Part003.handler, hpost, hr, hvf]
    first
      | rfl
      | simp_all [bodyIsEnvelope, isEnvelope_part003SSML]
  | false =>
  cases hvo : (cfg.verifyEnabled && !verifierOk) with
  | true =>
    simp only [Part003.handler, hpost, hr, hvf, hvo]
    first
      | rfl
      | simp_all [bodyIsEnvelope, isEnvelope_part003SSML]
  | false =>
  cases hbj : req.bodyJson with
  | none =>
    simp only [Part003.handler, hpost, hr, hvf, hvo, hbj]
    first
      | rfl
      | simp_all [bodyIsEnvelope, isEnvelope_part003SSML]
  | some j =>
  cases hnul : isNullJ j with
  | true =>
    simp only [Part003.handler, hpost, hr, hvf, hvo, hbj, hnul]
    first
      | rfl
      | simp_all [bodyIsEnvelope, isEnvelope_part003SSML]
  | false =>
  cases hla : jsEq (reqType j) "LaunchRequest" with
  | true =>
    simp only [Part003.handler, hpost, hr, hvf, hvo, hbj, hnul, hla]
    first
      | rfl
      | simp_all [bodyIsEnvelope, isEnvelope_part003SSML]
  | false =>
  cases hir : (jsEq (reqType j) "IntentRequest" && jsEq (reqIntentName j) "AskPerplexityIntent") with
  | false =>
    simp only [Part003.handler, hpost, hr, hvf, hvo, hbj, hnul, hla, hir]
    first
      | rfl
      | simp_all [bodyIsEnvelope, isEnvelope_part003SSML]
  | true =>
  by_cases hu : cfg.MAKE_WEBHOOK_URL = ""
  · simp only [Part003.handler, hpost, hr, hvf, hvo, hbj, hnul, hla, hir, if_pos hu]
    first
      | rfl
      | simp_all [bodyIsEnvelope, isEnvelope_part003SSML]
  · cases f with
    | throws =>
      simp only [Part003.handler, hpost, hr, hvf, hvo, hbj, hnul, hla, hir, if_neg hu]
      first
        | rfl
        | simp_all [bodyIsEnvelope, isEnvelope_part003SSML]
    | result r =>
      cases hpt : passThru (makeData (FetchOutcome.result r)) with
      | true =>
        simp only [Part003.handler, hpost, hr, hvf, hvo, hbj, hnul, hla, hir,
          if_neg hu, hpt]
        simp [hpt]
        simp only [bodyIsEnvelope]
        exact htrust hpt
      | false =>
        cases htx : jsOrO (jsOrO (jsOrO (jsOrO ((makeData (FetchOutcome.result r)).get? "ssml")
            ((makeData (FetchOutcome.result r)).get? "speech"))
            ((makeData (FetchOutcome.result r)).get? "answer"))
            ((makeData (FetchOutcome.result r)).get? "message"))
            ((makeData (FetchOutcome.result r)).get? "text") with
        | none =>
          simp only [Part003.handler, hpost, hr, hvf, hvo, hbj, hnul, hla, hir,
            if_neg hu, hpt, htx]
          first
            | rfl
            | simp_all [bodyIsEnvelope, isEnvelope_part003SSML]
        | some v =>
          cases v with
          | str t =>
            by_cases hemp : jsTrim t = ""
            · simp only [Part003.handler, hpost, hr, hvf, hvo, hbj, hnul, hla, hir,
                if_neg hu, hpt, htx, if_pos hemp]
              first
                | rfl
                | simp_all [bodyIsEnvelope, isEnvelope_part003SSML]
            · simp only [Part003.handler, hpost, hr, hvf, hvo, hbj, hnul, hla, hir,
                if_neg hu, hpt, htx, if_neg hemp]
              first
                | rfl
                | simp_all [bodyIsEnvelope, isEnvelope_part003SSML]
          | null =>
            simp only [Part003.handler, hpost, hr, hvf, hvo, hbj, hnul, hla, hir,
              if_neg hu, hpt, htx]
            first
              | rfl
              | simp_all [bodyIsEnvelope, isEnvelope_part003SSML]
          | bool b =>
            simp only [Part003.handler, hpost, hr, hvf, hvo, hbj, hnul, hla, hir,
              if_neg hu, hpt, htx]
            first
              | rfl
              | simp_all [bodyIsEnvelope, isEnvelope_part003SSML]
          | num n =>
            simp only [Part003.handler, hpost, hr, hvf, hvo, hbj, hnul, hla, hir,
              if_neg hu, hpt, htx]
            first
              | rfl
              | simp_all [bodyIsEnvelope, isEnvelope_part003SSML]
          | arr xs =>
            simp only [Part003.handler, hpost, hr, hvf, hvo, hbj, hnul, hla, hir,
              if_neg hu, hpt, htx]
            first
              | rfl
              | simp_all [bodyIsEnvelope, isEnvelope_part003SSML]
          | obj fs =>
            simp only [Part003.handler, hpost, hr, hvf, hvo, hbj, hnul, hla, hir,
              if_neg hu, hpt, htx]
            first
              | rfl
              | simp_all [bodyIsEnvelope, isEnvelope_part003SSML]

/-- C1: for every inbound POST request, src/api/alexa.js and part_003
(the revisions the claim cites) produce exactly one outbound envelope
matching the Outbound Envelope shape as the response body, whatever
branch runs and whatever fails (body read, verification, JSON parse, a
null body, the downstream call). Both embedded handlers are total
functions into a single response, which is the exactly-one statement;
this theorem adds that the body written is always a JSON envelope. The
one hypothesis besides the POST method is the spec's own trust
assumption for the pass-through branch: when the decoded downstream
body has truthy version and response members, it is a fully valid
envelope. -/
theorem c1_one_envelope_per_post (cfg : Config) (req : Req) (verifierOk : Bool)
    (f : FetchOutcome)
    (hpost : req.method = "POST")
    (htrust : passThru (makeData f) = true → isEnvelope (makeData f) = true) :
    (∃ e, (AlexaJs.handler cfg req verifierOk f).1.body = Sum.inl e ∧
      isEnvelope e = true) ∧
    (∃ e, (Part003.handler cfg req verifierOk f).1.body = Sum.inl e ∧
      isEnvelope e = true) := by
  have h1 := alexaJs_bodyEnv cfg req verifierOk f hpost htrust
  have h2 := part003_bodyEnv cfg req verifierOk f hpost htrust
  constructor
  · cases hb : (AlexaJs.handler cfg req verifierOk f).1.body with
    | inl e =>
      rw [hb] at h1
      exact ⟨e, rfl, h1⟩
    | inr t =>
      rw [hb] at h1
      simp [bodyIsEnvelope] at h1
  · cases hb : (Part003.handler cfg req verifierOk f).1.body with
    | inl e =>
      rw [hb] at h2
      exact ⟨e, rfl, h2⟩
    | inr t =>
      rw [hb] at h2
      simp [bodyIsEnvelope] at h2

/-- Witness for c1_one_envelope_per_post at a concrete POST launch
request whose downstream fetch rejects, where the trust hypothesis is
vacuous. -/
theorem c1_one_envelope_per_post_witness :
    (∃ e, (AlexaJs.handler cfgOpen (postReq (some launchBody)) true
        FetchOutcome.throws).1.body = Sum.inl e ∧ isEnvelope e = true) ∧
    (∃ e, (Part003.handler cfgOpen (postReq (some launchBody)) true
        FetchOutcome.throws).1.body = Sum.inl e ∧ isEnvelope e = true) :=
  c1_one_envelope_per_post cfgOpen (postReq (some launchBody)) true FetchOutcome.throws
    rfl (by decide)

/-- jsStartsWith_concat: a concatenation beginning with p starts with
p. -/
theorem jsStartsWith_concat (p s : String) : jsStartsWith (p ++ s) p = true := by
  have h : (p ++ s).data = p.data ++ s.data := rfl
  simp [jsStartsWith, h, List.isPrefixOf_iff_prefix]

/-- jsEndsWith_concat: a concatenation finishing with p ends with p. -/
theorem jsEndsWith_concat (s p : String) : jsEndsWith (s ++ p) p = true := by
  have h : (s ++ p).data = s.data ++ p.data := rfl
  simp [jsEndsWith, h, List.isPrefixOf_iff_prefix]

/-- Counterexample to C10: a run of src/api/alexa.js whose downstream
body carries the ssml member "<speak>oops". The handler builds its
envelope with alexaSSML, which keeps the string verbatim because it
already starts with the opening tag; the resulting ssml does not end
with "</speak>", refuting the begins-and-ends invariant as stated. -/
theorem c10_counterexample :
    (AlexaJs.handler cfgOpen (postReq (some askBody)) true
        (FetchOutcome.result ⟨true, 200, "x",
          some (Json.obj [("ssml", Json.str "<speak>oops")])⟩)).1.body
      = Sum.inl (AlexaJs.alexaSSML (Json.str "<speak>oops") true) ∧
    envSsml (AlexaJs.alexaSSML (Json.str "<speak>oops") true)
      = some (Json.str "<speak>oops") ∧
    jsStartsWith "<speak>oops" "<speak>" = true ∧
    jsEndsWith "<speak>oops" "</speak>" = false :=
  ⟨rfl, rfl, by decide, by decide⟩

/-- C10 amended: every envelope the SSML builders construct has an ssml
string beginning with "<speak>". The alexaSSML builder of
src/api/alexa.js wraps exactly when the trimmed input does not already
start with "<speak>" (the wrapped form then also ends with
"</speak>"), and keeps an input already starting with "<speak>"
verbatim, so it never double-wraps, but such an input ends with
"</speak>" only if it already did. The part_004 builder alexaResponse
always wraps, so its ssml both begins with "<speak>" and ends with
"</speak>". -/
theorem c10_amended :
    (∀ (v : Json) (b : Bool), ∃ w : String,
        envSsml (AlexaJs.alexaSSML v b) = some (Json.str w) ∧
        jsStartsWith w "<speak>" = true) ∧
    (∀ (s : String) (b : Bool), jsStartsWith (jsTrim s) "<speak>" = false →
        envSsml (AlexaJs.alexaSSML (Json.str s) b)
          = some (Json.str ("<speak>" ++ jsTrim s ++ "</speak>")) ∧
        jsEndsWith ("<speak>" ++ jsTrim s ++ "</speak>") "</speak>" = true) ∧
    (∀ (s : String) (b : Bool), jsStartsWith (jsTrim s) "<speak>" = true →
        envSsml (AlexaJs.alexaSSML (Json.str s) b) = some (Json.str (jsTrim s))) ∧
    (∀ (t : String) (b : Bool),
        envSsml (Part004.alexaResponse t b)
          = some (Json.str ("<speak>" ++ t ++ "</speak>")) ∧
        jsStartsWith ("<speak>" ++ t ++ "</speak>") "<speak>" = true ∧
        jsEndsWith ("<speak>" ++ t ++ "</speak>") "</speak>" = true) := by
  refine ⟨?_, ?_, ?_, ?_⟩
  · intro v b
    by_cases h : jsStartsWith (jsTrim (AlexaJs.jsToStringN v)) "<speak>" = true
    · refine ⟨jsTrim (AlexaJs.jsToStringN v), ?_, h⟩
      simp [AlexaJs.alexaSSML, envSsml, envSpeech, jget, Json.get?, lookupF, h]
    · refine ⟨"<speak>" ++ jsTrim (AlexaJs.jsToStringN v) ++ "</speak>", ?_, ?_⟩
      · simp [AlexaJs.alexaSSML, envSsml, envSpeech, jget, Json.get?, lookupF, h]
      · rw [String.append_assoc]
        exact jsStartsWith_concat "<speak>" (jsTrim (AlexaJs.jsToStringN v) ++ "</speak>")
  · intro t b h
    have hn : jsTrim (AlexaJs.jsToStringN (Json.str t)) = jsTrim t := rfl
    constructor
    · simp [AlexaJs.alexaSSML, envSsml, envSpeech, jget, Json.get?, lookupF, hn, h]
    · exact jsEndsWith_concat ("<speak>" ++ jsTrim t) "</speak>"
  · intro t b h
    have hn : jsTrim (AlexaJs.jsToStringN (Json.str t)) = jsTrim t := rfl
    simp [AlexaJs.alexaSSML, envSsml, envSpeech, jget, Json.get?, lookupF, hn, h]
  · intro t b
    refine ⟨rfl, ?_, jsEndsWith_concat ("<speak>" ++ t) "</speak>"⟩
    rw [String.append_assoc]
    exact jsStartsWith_concat "<speak>" (t ++ "</speak>")

/-- Witness for c10_amended: the wrap branch at the input "hi", the
keep-verbatim branch at "<speak>hi</speak>", and the part_004 builder
at "oi". -/
theorem c10_amended_witness :
    (envSsml (AlexaJs.alexaSSML (Json.str "hi") true)
        = some (Json.str ("<speak>" ++ jsTrim "hi" ++ "</speak>")) ∧
      jsEndsWith ("<speak>" ++ jsTrim "hi" ++ "</speak>") "</speak>" = true) ∧
    (envSsml (AlexaJs.alexaSSML (Json.str "<speak>hi</speak>") false)
        = some (Json.str (jsTrim "<speak>hi</speak>"))) ∧
    (envSsml (Part004.alexaResponse "oi" true)
        = some (Json.str ("<speak>" ++ "oi" ++ "</speak>")) ∧
      jsStartsWith ("<speak>" ++ "oi" ++ "</speak>") "<speak>" = true ∧
      jsEndsWith ("<speak>" ++ "oi" ++ "</speak>") "</speak>" = true) :=
  ⟨c10_amended.2.1 "hi" true (by decide),
    c10_amended.2.2.1 "<speak>hi</speak>" false (by decide),
    c10_amended.2.2.2 "oi" true⟩
